import Mathlib

/-!
# namp: the terminal view `UIView` (src/uiview.cpp)

A shallow embedding of `UIView`: its member variables become the fields of a
structure, every member function becomes a function on that structure, and the
things the class takes from outside are parameters: `Env` holds what a call
reads from the terminal and the clock (the size returned by `getmaxyx`, the time
behind `QTime`), `Lib` the library functions whose tables are not part of the
program (case folding, the tag reader, the file name of a path).

Conventions.
* `int` is `Int`; `/` and `%` are `Int.tdiv` and `Int.tmod` (C++ truncation).
  Signed overflow is undefined in C++ and is not modelled; the two assignments
  of a `qint64` quotient to an `int` member go through `toInt32`.
* `QString` is a list of characters; the Qt 5 members used by the source
  (`contains`, `insert`, `remove`, `mid`) are written out below.
* A window handle is a `Bool`: `true` for a window returned by `newwin`,
  `false` for `NULL`; `newwin` is taken to return a window (its arguments are
  never negative here).
* Three fields are bookkeeping of the embedding and not members of the class:
  `signals` (the signals emitted so far, oldest first), `rows` (the rows the
  last `DrawPlaylist` wrote) and `outOfRange` (set once a `QVector::at` was
  called with an index outside the vector).
* The build is the one without `__APPLE__`.
-/

namespace Namp

/-! ## Qt and C helpers -/

/-- The Qt string, as its sequence of characters. -/
abbrev QString := List Char

/-- The template `qMax` of QtGlobal: `(a < b) ? b : a`. -/
def qMax (a b : Int) : Int := if a < b then b else a

/-- The template `qMin` of QtGlobal: `(a < b) ? a : b`. -/
def qMin (a b : Int) : Int := if a < b then a else b

/-- The template `qBound` of Qt 5: `qMax(min, qMin(max, val))`. -/
def qBound (min val max : Int) : Int := qMax min (qMin max val)

/-- Bounds-checked `QVector::at` and `QList::at`: `none` outside `[0, size)`. -/
def QVector_at {α : Type} (v : List α) (i : Int) : Option α :=
  if 0 ≤ i ∧ i < (v.length : Int) then v.get? i.toNat else none

/-- Whether `q`, case folded, starts the string `s`, case folded. -/
def startsWithFold (fold : Char → Char) : QString → QString → Bool
  | [], _ => true
  | _ :: _, [] => false
  | q :: qs, c :: cs => (fold q == fold c) && startsWithFold fold qs cs

/-- The member `QString::contains(str, Qt::CaseInsensitive)`: some position of `s`
starts an occurrence of `q`, both compared after case folding. -/
def QString_contains (fold : Char → Char) : QString → QString → Bool
  | [], q => startsWithFold fold q []
  | c :: cs, q => startsWithFold fold q (c :: cs) || QString_contains fold cs q

/-- The constructor `QChar(int)`: the code unit `rc & 0xffff`. -/
def QChar (rc : Int) : Char := Char.ofNat (rc % 65536).toNat

/-- The member `QString::insert(int i, QChar c)` of Qt 5: a negative position counts
from the end (and is ignored when still negative), a position past the end
pads the string with spaces. -/
def QString_insert (str : QString) (i : Int) (c : Char) : QString :=
  let i := if i < 0 then i + str.length else i
  if i < 0 then str
  else
    let n := i.toNat
    if n ≤ str.length then str.take n ++ c :: str.drop n
    else str ++ List.replicate (n - str.length) (Char.ofNat 32) ++ [c]

/-- The member `QString::remove(int pos, 1)` of Qt 5: a negative position counts from
the end, a position outside the string changes nothing. -/
def QString_remove1 (str : QString) (pos : Int) : QString :=
  let pos := if pos < 0 then pos + str.length else pos
  if 0 ≤ pos ∧ pos < str.length then str.take pos.toNat ++ str.drop (pos.toNat + 1)
  else str

/-- The member `QString::mid(int position, int n)` of Qt 5. -/
def QString_mid (str : QString) (position n : Int) : QString :=
  let size : Int := str.length
  if position > size then []
  else if position < 0 then
    if n < 0 ∨ n + position ≥ size then str
    else if n + position ≤ 0 then []
    else str.take (n + position).toNat
  else if n < 0 ∨ n > size - position then str.drop position.toNat
  else (str.drop position.toNat).take n.toNat

/-- The C function `isalnum` in the C locale (and in a UTF-8 locale). C defines it for
the values of `unsigned char` and `EOF` only; the source also passes the ncurses
key codes from 256 on, where the call is undefined: the model answers `false`
there, which is what the handler's `switch` on those codes presupposes. -/
def isalnum (c : Int) : Bool :=
  (48 ≤ c && c ≤ 57) || (65 ≤ c && c ≤ 90) || (97 ≤ c && c ≤ 122)

/-- The C function `ispunct` in the C locale (and in a UTF-8 locale); outside the values
of `unsigned char` and `EOF` the call is undefined and the model answers `false`,
as for `isalnum`. -/
def ispunct (c : Int) : Bool :=
  (33 ≤ c && c ≤ 47) || (58 ≤ c && c ≤ 64) || (91 ≤ c && c ≤ 96) || (123 ≤ c && c ≤ 126)

/-- The conversion of a `qint64` to `int`: the value modulo `2^32`, taken in
`[-2^31, 2^31)`. -/
def toInt32 (v : Int) : Int := (v + 2147483648) % 4294967296 - 2147483648

/-- The decimal digits of a natural number. -/
def decimal (n : Nat) : QString := Nat.toDigits 10 n

/-- The conversion `%d` of printf. -/
def fmt_d (v : Int) : QString :=
  if v < 0 then "-".toList ++ decimal v.natAbs else decimal v.natAbs

/-- The conversion `%02d` of printf: zero padded to a width of two, sign included. -/
def fmt_02d (v : Int) : QString :=
  if 0 ≤ v ∧ v < 10 then "0".toList ++ decimal v.natAbs else fmt_d v

/-! ## ncurses constants -/

def KEY_DOWN : Int := 258
def KEY_UP : Int := 259
def KEY_LEFT : Int := 260
def KEY_RIGHT : Int := 261
def KEY_BACKSPACE : Int := 263
def BUTTON1_CLICKED : Nat := 0x4
def BUTTON1_DOUBLE_CLICKED : Nat := 0x8

/-! ## Data model -/

/-- Modelled from the spec: the enumeration `UIState` of uiview.h, which is not
among the sources. Its three values are used as bit flags (`m_UIState & ...`);
`Player` and `Playlist` are the two focus modes, `Search` the overlay. -/
inductive UIState where
  | UISTATE_PLAYER
  | UISTATE_PLAYLIST
  | UISTATE_SEARCH
deriving DecidableEq, Repr

export UIState (UISTATE_PLAYER UISTATE_PLAYLIST UISTATE_SEARCH)

/-- Modelled from the spec: the flag carried by each value of `UIState`. -/
def UIState.bits : UIState → Nat
  | UISTATE_PLAYER => 1
  | UISTATE_PLAYLIST => 2
  | UISTATE_SEARCH => 4

/-- The test `a & mask`, for a mask given by its bits. -/
def UIState.test (a : UIState) (mask : Nat) : Bool := (a.bits &&& mask) != 0

/-- Modelled from the spec: the control kinds of uiview.h carried by a mouse event. -/
inductive UIElement where
  | UIELEM_VOLUME
  | UIELEM_VOLUMEUP
  | UIELEM_VOLUMEDOWN
  | UIELEM_POSITION
  | UIELEM_PREVIOUS
  | UIELEM_PLAY
  | UIELEM_PAUSE
  | UIELEM_STOP
  | UIELEM_NEXT
  | UIELEM_SHUFFLE
deriving DecidableEq, Repr

/-- The signals of `UIView`. -/
inductive Signal where
  | SetCurrentIndex (index : Int)
  | UIStateUpdated (state : UIState)
  | ProcessMouseEvent (elem : UIElement) (value : Int)
deriving DecidableEq, Repr

/-- The record `TrackInfo(path, name, duration, index)`. -/
structure TrackInfo where
  path : QString
  name : QString
  duration : Int
  index : Int
deriving DecidableEq, Repr

/-- One row written by `DrawPlaylist`: the window line `i + 1`, the list index
`i + m_PlaylistOffset`, the entry read there (`none` for a read outside the list)
and whether the row is drawn reversed. -/
structure Row where
  line : Int
  playlistIndex : Int
  track : Option TrackInfo
  selected : Bool
deriving DecidableEq, Repr

/-- The library functions the class calls, the same at every call. -/
structure Lib where
  /-- The case folding applied by `Qt::CaseInsensitive`. -/
  foldCase : Char → Char
  /-- The artist and title TagLib finds for a path, `none` when the file has no tag. -/
  readTag : QString → Option (QString × QString)
  /-- The helper `QUrl(path).fileName()`. -/
  fileName : QString → QString

/-- What a call reads from the terminal and the clock. -/
structure Env where
  /-- The columns reported by `getmaxyx(stdscr, ...)`. -/
  terminalWidth : Int
  /-- The lines reported by `getmaxyx(stdscr, ...)`. -/
  terminalHeight : Int
  /-- The clock read by `QTime`, in milliseconds. -/
  clock : Int

/-- The members of `UIView`, the function statics of `GetPlayerTrackName`, and the
three bookkeeping fields. -/
structure UIView where
  m_TerminalWidth : Int
  m_TerminalHeight : Int
  m_PlayerWindow : Bool
  m_PlaylistWindow : Bool
  m_PlaylistWindowHeight : Int
  m_PlaylistWindowX : Int
  m_PlaylistWindowY : Int
  m_TrackPositionSec : Int
  m_TrackDurationSec : Int
  m_PlaylistPosition : Int
  m_PlaylistSelected : Int
  m_PlaylistOffset : Int
  m_VolumePercentage : Int
  m_Shuffle : Bool
  m_UIState : UIState
  m_PreviousUIState : UIState
  m_SearchString : QString
  m_SearchStringPos : Int
  m_Playlist : List TrackInfo
  m_Resultlist : List TrackInfo
  lastUpdateTime : Int
  lastPlaylistPosition : Int
  nextUpdateAtElapsed : Int
  trackScrollOffset : Int
  signals : List Signal
  rows : List Row
  outOfRange : Bool

/-! The geometry members set once by the constructor and never assigned again. -/

def m_PlayerWindowWidth : Int := 40
def m_PlayerWindowHeight : Int := 6
def m_PlayerWindowX : Int := 0
def m_PlayerWindowY : Int := 0
def m_PlaylistWindowWidth : Int := 40
def m_PlaylistWindowMinHeight : Int := 6

namespace UIView

/-- The statement `emit sig`. -/
def emit (sig : Signal) (s : UIView) : UIView :=
  { s with signals := s.signals ++ [sig] }

/-! ## Layout -/

def DeleteWindows (s : UIView) : UIView :=
  { s with m_PlayerWindow := false, m_PlaylistWindow := false, rows := [] }

def CreateWindows (s : UIView) : UIView :=
  -- Player window has constant size and position
  let s := { s with m_PlayerWindow := true }
  if m_PlayerWindowHeight + m_PlaylistWindowMinHeight ≤ s.m_TerminalHeight then
    -- Playlist can fit under player window (first option)
    { s with
      m_PlaylistWindowHeight := s.m_TerminalHeight - m_PlayerWindowHeight
      m_PlaylistWindowX := 0
      m_PlaylistWindowY := m_PlayerWindowHeight
      m_PlaylistWindow := true }
  else if m_PlayerWindowWidth + m_PlaylistWindowWidth ≤ s.m_TerminalWidth then
    -- Playlist can fit on the right side of player window (second option)
    { s with
      m_PlaylistWindowHeight := m_PlayerWindowHeight
      m_PlaylistWindowX := m_PlayerWindowWidth
      m_PlaylistWindowY := 0
      m_PlaylistWindow := true }
  else
    -- Disable playlist if it cannot fit (last option)
    { s with m_PlaylistWindow := false }

def UpdateScreen (e : Env) (s : UIView) : UIView :=
  if e.terminalWidth ≠ s.m_TerminalWidth ∨ e.terminalHeight ≠ s.m_TerminalHeight then
    CreateWindows (DeleteWindows
      { s with m_TerminalWidth := e.terminalWidth, m_TerminalHeight := e.terminalHeight })
  else s

/-! ## Player pane -/

/-- The text `snprintf(position, 10, "(%d:%02d)", d / 60, d % 60)` leaves in its
buffer of ten bytes. -/
def positionText (d : Int) : QString :=
  ("(".toList ++ fmt_d (Int.tdiv d 60) ++ ":".toList ++ fmt_02d (Int.tmod d 60)
    ++ ")".toList).take 9

/-- The first half of `GetPlayerTrackName`: the name with its duration suffix,
`none` when `m_Playlist.at` is called outside the vector. -/
def fullTrackName (s : UIView) : Option QString :=
  if s.m_PlaylistPosition < s.m_Playlist.length then
    (QVector_at s.m_Playlist s.m_PlaylistPosition).map
      (fun t => t.name ++ " ".toList ++ positionText s.m_TrackDurationSec)
  else some []

/-- The scroll branch of `GetPlayerTrackName`, on the statics. -/
def scrollStep (now : Int) (size p_MaxLength : Int) (s : UIView) : UIView :=
  if s.lastPlaylistPosition ≠ s.m_PlaylistPosition then
    -- When track changed, hold title for 4 secs
    { s with
      lastUpdateTime := now
      trackScrollOffset := 0
      nextUpdateAtElapsed := 3900
      lastPlaylistPosition := s.m_PlaylistPosition }
  else if now - s.lastUpdateTime > s.nextUpdateAtElapsed then
    -- When timer elapsed, increment scroll position
    let maxScrollOffset := size - p_MaxLength
    if s.trackScrollOffset < maxScrollOffset then
      -- During scroll, view each offset for 1 sec
      { s with
        lastUpdateTime := now
        nextUpdateAtElapsed := 900
        trackScrollOffset := s.trackScrollOffset + 1 }
    else if s.trackScrollOffset = maxScrollOffset then
      -- At end of scroll, hold title for 4 secs
      { s with
        lastUpdateTime := now
        nextUpdateAtElapsed := 3900
        trackScrollOffset := s.trackScrollOffset + 1 }
    else
      { s with lastUpdateTime := now, trackScrollOffset := 0 }
  else s

/-- The function `GetPlayerTrackName(p_MaxLength)`, at clock `now`: the returned text
and the state with the statics updated; `none` when `m_Playlist.at` is called
outside the vector. -/
def GetPlayerTrackName (now : Int) (p_MaxLength : Int) (s : UIView) :
    Option (QString × UIView) :=
  match fullTrackName s with
  | none => none
  | some trackName =>
    if (trackName.length : Int) > p_MaxLength then
      -- Scroll track names that cannot fit
      let s' := scrollStep now trackName.length p_MaxLength s
      some (QString_mid trackName s'.trackScrollOffset p_MaxLength, s')
    else some (trackName, s)

def DrawPlayer (e : Env) (s : UIView) : UIView :=
  if s.m_PlayerWindow then
    match GetPlayerTrackName e.clock 27 s with
    | some (_, s') => s'
    | none => { s with outOfRange := true }
  else s

/-! ## Playlist pane -/

/-- The loop that refreshes the search result list, started from the cleared list. -/
def refreshResultlist (fold : Char → Char) (query : QString) (playlist : List TrackInfo) :
    List TrackInfo :=
  playlist.foldl
    (fun result trackInfo =>
      if QString_contains fold trackInfo.path query || QString_contains fold trackInfo.name query
      then result ++ [trackInfo] else result)
    []

/-- The track list loop of `DrawPlaylist` over `list`: the offset it stores and the
rows it writes. -/
def drawTrackList (list : List TrackInfo) (s : UIView) : UIView :=
  let viewMax := s.m_PlaylistWindowHeight - 2
  let offset := qBound 0 (s.m_PlaylistSelected - Int.tdiv (viewMax - 1) 2)
    (qMax 0 (list.length - viewMax))
  let viewCount := qBound 0 list.length viewMax
  let rows := (List.range viewCount.toNat).map (fun i =>
    let playlistIndex : Int := i + offset
    { line := i + 1
      playlistIndex := playlistIndex
      track := QVector_at list playlistIndex
      selected := playlistIndex == s.m_PlaylistSelected : Row })
  { s with
    m_PlaylistOffset := offset
    rows := rows
    outOfRange := s.outOfRange || rows.any (fun r => r.track.isNone) }

def DrawPlaylist (L : Lib) (s : UIView) : UIView :=
  if s.m_PlaylistWindow then
    if s.m_UIState.test (UISTATE_PLAYER.bits ||| UISTATE_PLAYLIST.bits) then
      -- Track list
      drawTrackList s.m_Playlist s
    else
      -- Refresh search result list
      let s := { s with
        m_Resultlist := refreshResultlist L.foldCase s.m_SearchString s.m_Playlist }
      -- Track list
      drawTrackList s.m_Resultlist s
  else s

def Refresh (L : Lib) (e : Env) (s : UIView) : UIView :=
  DrawPlaylist L (DrawPlayer e (UpdateScreen e s))

/-! ## Public slots -/

/-- The body of the loop of `PlaylistUpdated` for one path. -/
def trackInfoOf (L : Lib) (trackPath : QString) (index : Int) : TrackInfo :=
  let trackName : QString :=
    match L.readTag trackPath with
    | some (artist, title) =>
      if artist.length > 0 ∧ title.length > 0 then artist ++ " - ".toList ++ title else []
    | none => []
  let trackName := if trackName.isEmpty then L.fileName trackPath else trackName
  { path := trackPath, name := trackName, duration := 0, index := index }

/-- The loop of `PlaylistUpdated`: the playlist and the running `index`. -/
def buildPlaylist (L : Lib) (p_Paths : List QString) : List TrackInfo × Int :=
  p_Paths.foldl
    (fun acc trackPath => (acc.1 ++ [trackInfoOf L trackPath acc.2], acc.2 + 1))
    ([], 0)

def PlaylistUpdated (L : Lib) (e : Env) (p_Paths : List QString) (s : UIView) : UIView :=
  Refresh L e { s with m_Playlist := (buildPlaylist L p_Paths).1 }

def PositionChanged (L : Lib) (e : Env) (p_Position : Int) (s : UIView) : UIView :=
  Refresh L e { s with m_TrackPositionSec := toInt32 (Int.tdiv p_Position 1000) }

def DurationChanged (L : Lib) (e : Env) (p_Position : Int) (s : UIView) : UIView :=
  Refresh L e { s with m_TrackDurationSec := toInt32 (Int.tdiv p_Position 1000) }

def CurrentIndexChanged (L : Lib) (e : Env) (p_Position : Int) (s : UIView) : UIView :=
  Refresh L e { s with m_PlaylistPosition := p_Position, m_PlaylistSelected := p_Position }

def VolumeChanged (L : Lib) (e : Env) (p_Volume : Int) (s : UIView) : UIView :=
  Refresh L e { s with m_VolumePercentage := p_Volume }

def PlaybackModeUpdated (L : Lib) (e : Env) (p_Shuffle : Bool) (s : UIView) : UIView :=
  Refresh L e { s with m_Shuffle := p_Shuffle }

def SetUIState (p_UIState : UIState) (s : UIView) : UIView :=
  let s := { s with m_PreviousUIState := s.m_UIState, m_UIState := p_UIState }
  let s :=
    if s.m_UIState.test UISTATE_SEARCH.bits then
      { s with m_SearchString := [], m_SearchStringPos := 0, m_PlaylistSelected := 0 }
    else
      { s with m_PlaylistSelected := s.m_PlaylistPosition }
  emit (Signal.UIStateUpdated s.m_UIState) s

def Search (L : Lib) (e : Env) (s : UIView) : UIView :=
  Refresh L e (SetUIState UISTATE_SEARCH s)

def SelectPrevious (L : Lib) (e : Env) (s : UIView) : UIView :=
  Refresh L e { s with m_PlaylistSelected := qMax 0 (s.m_PlaylistSelected - 1) }

def SelectNext (L : Lib) (e : Env) (s : UIView) : UIView :=
  Refresh L e { s with
    m_PlaylistSelected := qMin (s.m_PlaylistSelected + 1) (s.m_Playlist.length - 1) }

def PagePrevious (L : Lib) (e : Env) (s : UIView) : UIView :=
  let viewMax := s.m_PlaylistWindowHeight - 2
  Refresh L e { s with m_PlaylistSelected := qMax 0 (s.m_PlaylistSelected - viewMax) }

def PageNext (L : Lib) (e : Env) (s : UIView) : UIView :=
  let viewMax := s.m_PlaylistWindowHeight - 2
  Refresh L e { s with
    m_PlaylistSelected := qMin (s.m_PlaylistSelected + viewMax) (s.m_Playlist.length - 1) }

def PlaySelected (s : UIView) : UIView :=
  emit (Signal.SetCurrentIndex s.m_PlaylistSelected) s

def ToggleWindow (L : Lib) (e : Env) (s : UIView) : UIView :=
  let s :=
    match s.m_UIState with
    | UISTATE_PLAYER => SetUIState UISTATE_PLAYLIST s
    | UISTATE_PLAYLIST => SetUIState UISTATE_PLAYER s
    | _ => s
  Refresh L e s

/-- The function `KeyPress(p_Key)`; the `switch` is written as a chain of tests on
its pairwise different labels. -/
def KeyPress (L : Lib) (e : Env) (p_Key : Int) (s : UIView) : UIView :=
  let s :=
    if ispunct p_Key || isalnum p_Key || p_Key == 32 then
      if (s.m_SearchString.length : Int) < 26 then
        { s with
          m_SearchString := QString_insert s.m_SearchString s.m_SearchStringPos (QChar p_Key)
          m_SearchStringPos := s.m_SearchStringPos + 1 }
      else
        -- flash()
        s
    else if p_Key = 10 then
      let s :=
        if s.m_PlaylistSelected < s.m_Resultlist.length then
          match QVector_at s.m_Resultlist s.m_PlaylistSelected with
          | some t => emit (Signal.SetCurrentIndex t.index) s
          | none => { s with outOfRange := true }
        else s
      SetUIState s.m_PreviousUIState s
    else if p_Key = KEY_LEFT then
      { s with
        m_SearchStringPos := qBound 0 (s.m_SearchStringPos - 1) s.m_SearchString.length }
    else if p_Key = KEY_RIGHT then
      { s with
        m_SearchStringPos := qBound 0 (s.m_SearchStringPos + 1) s.m_SearchString.length }
    else if p_Key = KEY_UP then
      { s with
        m_PlaylistSelected := qBound 0 (s.m_PlaylistSelected - 1) (s.m_Resultlist.length - 1) }
    else if p_Key = KEY_DOWN then
      { s with
        m_PlaylistSelected := qBound 0 (s.m_PlaylistSelected + 1) (s.m_Resultlist.length - 1) }
    else if p_Key = KEY_BACKSPACE then
      if s.m_SearchStringPos > 0 then
        { s with
          m_SearchString := QString_remove1 s.m_SearchString (s.m_SearchStringPos - 1)
          m_SearchStringPos := s.m_SearchStringPos - 1 }
      else s
    else if p_Key = 27 then
      SetUIState s.m_PreviousUIState s
    else s
  Refresh L e s

/-- The first block of `MouseEventRequest`: set focus. -/
def mouseFocus (L : Lib) (e : Env) (p_X p_Y : Int) (s : UIView) : UIView :=
  if p_Y ≥ m_PlayerWindowY ∧ p_Y ≤ m_PlayerWindowY + m_PlayerWindowHeight ∧
      p_X ≥ m_PlayerWindowX ∧ p_X ≤ m_PlayerWindowX + m_PlayerWindowWidth then
    if s.m_UIState = UISTATE_PLAYLIST then Refresh L e (SetUIState UISTATE_PLAYER s) else s
  else if p_Y ≥ s.m_PlaylistWindowY ∧ p_Y ≤ s.m_PlaylistWindowY + s.m_PlaylistWindowHeight ∧
      p_X ≥ s.m_PlaylistWindowX ∧ p_X ≤ s.m_PlaylistWindowX + m_PlaylistWindowWidth then
    if s.m_UIState = UISTATE_PLAYER then Refresh L e (SetUIState UISTATE_PLAYLIST s) else s
  else s

/-- The hit test shared by the click and the double click on the playlist. -/
def inPlaylistInterior (p_X p_Y : Int) (s : UIView) : Bool :=
  decide (p_Y > s.m_PlaylistWindowY ∧ p_Y < s.m_PlaylistWindowY + s.m_PlaylistWindowHeight ∧
    p_X > s.m_PlaylistWindowX + 1 ∧ p_X < s.m_PlaylistWindowX + m_PlaylistWindowWidth - 1)

/-- The second block of `MouseEventRequest`: handle click. -/
def mouseClick (L : Lib) (e : Env) (p_X p_Y : Int) (s : UIView) : UIView :=
  -- Volume
  if p_Y = 2 ∧ p_X ≥ 11 ∧ p_X ≤ 31 then
    emit (Signal.ProcessMouseEvent .UIELEM_VOLUME (Int.tdiv (100 * (p_X - 11)) 20)) s
  -- Position
  else if p_Y = 3 ∧ p_X ≥ 2 ∧ p_X ≤ 37 then
    emit (Signal.ProcessMouseEvent .UIELEM_POSITION (Int.tdiv (100 * (p_X - 2)) 35)) s
  -- Previous
  else if p_Y = 4 ∧ p_X ≥ 2 ∧ p_X ≤ 3 then
    emit (Signal.ProcessMouseEvent .UIELEM_PREVIOUS 0) s
  -- Play
  else if p_Y = 4 ∧ p_X ≥ 5 ∧ p_X ≤ 6 then
    emit (Signal.ProcessMouseEvent .UIELEM_PLAY 0) s
  -- Pause
  else if p_Y = 4 ∧ p_X ≥ 8 ∧ p_X ≤ 9 then
    emit (Signal.ProcessMouseEvent .UIELEM_PAUSE 0) s
  -- Stop
  else if p_Y = 4 ∧ p_X ≥ 11 ∧ p_X ≤ 12 then
    emit (Signal.ProcessMouseEvent .UIELEM_STOP 0) s
  -- Next
  else if p_Y = 4 ∧ p_X ≥ 14 ∧ p_X ≤ 15 then
    emit (Signal.ProcessMouseEvent .UIELEM_NEXT 0) s
  -- Shuffle
  else if p_Y = 4 ∧ p_X ≥ 18 ∧ p_X ≤ 20 then
    emit (Signal.ProcessMouseEvent .UIELEM_SHUFFLE 0) s
  -- Playlist
  else if inPlaylistInterior p_X p_Y s then
    Refresh L e { s with
      m_PlaylistSelected := s.m_PlaylistOffset + p_Y - s.m_PlaylistWindowY - 1 }
  else s

/-- The third block of `MouseEventRequest`: handle double click. -/
def mouseDoubleClick (L : Lib) (e : Env) (p_X p_Y : Int) (s : UIView) : UIView :=
  if inPlaylistInterior p_X p_Y s then
    let s := Refresh L e { s with
      m_PlaylistSelected := s.m_PlaylistOffset + p_Y - s.m_PlaylistWindowY - 1 }
    emit (Signal.SetCurrentIndex s.m_PlaylistSelected) s
  else s

/-- The fourth block of `MouseEventRequest`: handle scroll down. -/
def mouseScrollDown (L : Lib) (e : Env) (s : UIView) : UIView :=
  if s.m_UIState = UISTATE_PLAYER then
    emit (Signal.ProcessMouseEvent .UIELEM_VOLUMEDOWN 0) s
  else
    Refresh L e { s with
      m_PlaylistSelected := qBound 0 (s.m_PlaylistSelected + 1) (s.m_Playlist.length - 1) }

/-- The fifth block of `MouseEventRequest`: handle scroll up. -/
def mouseScrollUp (L : Lib) (e : Env) (s : UIView) : UIView :=
  if s.m_UIState = UISTATE_PLAYER then
    emit (Signal.ProcessMouseEvent .UIELEM_VOLUMEUP 0) s
  else
    Refresh L e { s with
      m_PlaylistSelected := qBound 0 (s.m_PlaylistSelected - 1) (s.m_Playlist.length - 1) }

def MouseEventRequest (L : Lib) (e : Env) (p_X p_Y : Int) (p_Button : Nat) (s : UIView) : UIView :=
  let s := mouseFocus L e p_X p_Y s
  let s := if (p_Button &&& BUTTON1_CLICKED) ≠ 0 then mouseClick L e p_X p_Y s else s
  let s := if (p_Button &&& BUTTON1_DOUBLE_CLICKED) ≠ 0 then mouseDoubleClick L e p_X p_Y s else s
  let s := if (p_Button &&& 0x08000000) ≠ 0 then mouseScrollDown L e s else s
  let s := if (p_Button &&& 0x00080000) ≠ 0 then mouseScrollUp L e s else s
  s

/-- The member initialisers of the constructor. -/
def members : UIView :=
  { m_TerminalWidth := -1
    m_TerminalHeight := -1
    m_PlayerWindow := false
    m_PlaylistWindow := false
    m_PlaylistWindowHeight := -1
    m_PlaylistWindowX := -1
    m_PlaylistWindowY := -1
    m_TrackPositionSec := 0
    m_TrackDurationSec := 0
    m_PlaylistPosition := 0
    m_PlaylistSelected := 0
    m_PlaylistOffset := 0
    m_VolumePercentage := 100
    m_Shuffle := true
    m_UIState := UISTATE_PLAYER
    m_PreviousUIState := UISTATE_PLAYER
    m_SearchString := []
    m_SearchStringPos := 0
    m_Playlist := []
    m_Resultlist := []
    lastUpdateTime := 0
    lastPlaylistPosition := -1
    nextUpdateAtElapsed := 0
    trackScrollOffset := 0
    signals := []
    rows := []
    outOfRange := false }

/-- The constructor `UIView::UIView`: the member initialisers, then `Refresh()`. -/
def new (L : Lib) (e : Env) : UIView := Refresh L e members

end UIView

/-! ## Calls from outside -/

/-- A call of a public member of `UIView`. -/
inductive Call where
  | PlaylistUpdated (p_Paths : List QString)
  | PositionChanged (p_Position : Int)
  | DurationChanged (p_Position : Int)
  | CurrentIndexChanged (p_Position : Int)
  | VolumeChanged (p_Volume : Int)
  | PlaybackModeUpdated (p_Shuffle : Bool)
  | Search
  | SelectPrevious
  | SelectNext
  | PagePrevious
  | PageNext
  | PlaySelected
  | ToggleWindow
  | KeyPress (p_Key : Int)
  | MouseEventRequest (p_X p_Y : Int) (p_Button : Nat)

/-- One call, made in the environment `e`. -/
def step (L : Lib) (e : Env) (c : Call) (s : UIView) : UIView :=
  match c with
  | .PlaylistUpdated p => s.PlaylistUpdated L e p
  | .PositionChanged p => s.PositionChanged L e p
  | .DurationChanged p => s.DurationChanged L e p
  | .CurrentIndexChanged p => s.CurrentIndexChanged L e p
  | .VolumeChanged v => s.VolumeChanged L e v
  | .PlaybackModeUpdated b => s.PlaybackModeUpdated L e b
  | .Search => s.Search L e
  | .SelectPrevious => s.SelectPrevious L e
  | .SelectNext => s.SelectNext L e
  | .PagePrevious => s.PagePrevious L e
  | .PageNext => s.PageNext L e
  | .PlaySelected => s.PlaySelected
  | .ToggleWindow => s.ToggleWindow L e
  | .KeyPress k => s.KeyPress L e k
  | .MouseEventRequest x y b => s.MouseEventRequest L e x y b

/-- A sequence of calls, each with the environment it is made in, oldest first. -/
def run (L : Lib) (calls : List (Env × Call)) (s : UIView) : UIView :=
  calls.foldl (fun s ec => step L ec.1 ec.2 s) s

/-! ## Vocabulary of the specification -/

/-- The list shown in the playlist pane: the result list while searching, the
catalog otherwise. -/
def visibleList (s : UIView) : List TrackInfo :=
  if s.m_UIState = UISTATE_SEARCH then s.m_Resultlist else s.m_Playlist

/-- The selection invariant of the specification: `selectedIndex` lies in
`[0, size - 1]` of the visible list when that list is non-empty, and is `0` when
it is empty. -/
def SelectionInBounds (s : UIView) : Prop :=
  if visibleList s = [] then s.m_PlaylistSelected = 0
  else 0 ≤ s.m_PlaylistSelected ∧ s.m_PlaylistSelected ≤ (visibleList s).length - 1

instance (s : UIView) : Decidable (SelectionInBounds s) := by
  unfold SelectionInBounds; infer_instance

/-- The cell `(cx, cy)` belongs to the rectangle of origin `(x, y)`, width `w` and
height `h`. -/
def inRect (x y w h : Int) (cx cy : Int) : Prop :=
  x ≤ cx ∧ cx < x + w ∧ y ≤ cy ∧ cy < y + h

/-- The `clamp(v, lo, hi)` of the specification. -/
def clamp (v lo hi : Int) : Int := max lo (min v hi)

/-- The wording of the specification: `q` is a case-insensitive substring of `s`,
that is, some contiguous part of `s` equals `q` once both are case folded. -/
def IsSubstringCI (fold : Char → Char) (q s : QString) : Prop :=
  ∃ pre mid post : QString, s = pre ++ mid ++ post ∧ mid.map fold = q.map fold

/-- The wording of the specification: the query is a case-insensitive substring of
the path or of the name of the entry. -/
def MatchesQuery (fold : Char → Char) (q : QString) (t : TrackInfo) : Prop :=
  IsSubstringCI fold q t.path ∨ IsSubstringCI fold q t.name

/-- The wording of the specification: the catalog of a path sequence, entry `i`
holding path `i` and the index `start + i`. -/
def catalogFrom (L : Lib) : Int → List QString → List TrackInfo
  | _, [] => []
  | start, p :: ps => UIView.trackInfoOf L p start :: catalogFrom L (start + 1) ps

/-- The members a render (`Refresh` and its three parts) leaves as they are. -/
structure RenderFrame (s s' : UIView) : Prop where
  trackPositionSec : s'.m_TrackPositionSec = s.m_TrackPositionSec
  trackDurationSec : s'.m_TrackDurationSec = s.m_TrackDurationSec
  playlistPosition : s'.m_PlaylistPosition = s.m_PlaylistPosition
  playlistSelected : s'.m_PlaylistSelected = s.m_PlaylistSelected
  volumePercentage : s'.m_VolumePercentage = s.m_VolumePercentage
  shuffle : s'.m_Shuffle = s.m_Shuffle
  uiState : s'.m_UIState = s.m_UIState
  previousUIState : s'.m_PreviousUIState = s.m_PreviousUIState
  searchString : s'.m_SearchString = s.m_SearchString
  searchStringPos : s'.m_SearchStringPos = s.m_SearchStringPos
  playlist : s'.m_Playlist = s.m_Playlist
  signals : s'.signals = s.signals

/-- Whether the call may be made in the state: `Search` is made outside search mode
only, every other call at any time. -/
def AllowedIn (c : Call) (s : UIView) : Prop :=
  match c with
  | Call.Search => s.m_UIState ≠ UISTATE_SEARCH
  | _ => True

/-- The calls are made one after another from `s`, `Search` never in search mode. -/
def SearchFromOutside (L : Lib) : List (Env × Call) → UIView → Prop
  | [], _ => True
  | ec :: rest, s => AllowedIn ec.2 s ∧ SearchFromOutside L rest (step L ec.1 ec.2 s)

/-- The stored result list is the one a render rebuilds for the current query,
whenever the view is in search mode with the playlist pane present. -/
def ResultlistCurrent (L : Lib) (s : UIView) : Prop :=
  s.m_UIState = UISTATE_SEARCH → s.m_PlaylistWindow = true →
    s.m_Resultlist = UIView.refreshResultlist L.foldCase s.m_SearchString s.m_Playlist

/-! ## Scenario data -/

/-- A library for the scenarios: ASCII case folding, no tags, the file name of a
path is the path. -/
def demoLib : Lib :=
  { foldCase := Char.toLower, readTag := fun _ => none, fileName := fun p => p }

/-- A terminal of 80 columns and 24 lines, at clock 0. -/
def demoEnv : Env := { terminalWidth := 80, terminalHeight := 24, clock := 0 }

/-- The three tracks of the scenarios of the specification. -/
def songs : List QString := ["Song A".toList, "Song B".toList, "Song C".toList]

/-- The scenario of the specification: the three tracks loaded, search entered, the
query `song b` typed. -/
def searchedSongB : UIView :=
  run demoLib [(demoEnv, Call.PlaylistUpdated songs), (demoEnv, Call.Search),
    (demoEnv, Call.KeyPress 115), (demoEnv, Call.KeyPress 111), (demoEnv, Call.KeyPress 110),
    (demoEnv, Call.KeyPress 103), (demoEnv, Call.KeyPress 32), (demoEnv, Call.KeyPress 98)]
    (UIView.new demoLib demoEnv)

/-- The view with the three tracks loaded and the second one playing, the player
pane focused. -/
def playerFocused : UIView :=
  run demoLib [(demoEnv, Call.PlaylistUpdated songs), (demoEnv, Call.CurrentIndexChanged 1)]
    (UIView.new demoLib demoEnv)

/-- The view with the three tracks loaded, the second one playing, the playlist
pane focused. -/
def playlistFocused : UIView :=
  run demoLib [(demoEnv, Call.PlaylistUpdated songs), (demoEnv, Call.CurrentIndexChanged 1),
    (demoEnv, Call.ToggleWindow)] (UIView.new demoLib demoEnv)

/-- A terminal of 80 columns and 12 lines: the playlist pane is stacked, 6 lines
high, with 4 rows. -/
def smallEnv : Env := { terminalWidth := 80, terminalHeight := 12, clock := 0 }

/-- Six tracks, more than the four rows of `smallEnv`. -/
def sixTracks : List QString :=
  ["a".toList, "b".toList, "c".toList, "d".toList, "e".toList, "f".toList]

/-- The six tracks on the small terminal, the fifth one playing and selected. -/
def fifthPlaying : UIView :=
  run demoLib [(smallEnv, Call.PlaylistUpdated sixTracks), (smallEnv, Call.CurrentIndexChanged 4)]
    (UIView.new demoLib smallEnv)

/-- The three tracks loaded, then a primary click at column 5 of terminal line 12,
the sixth row of the playlist pane, which shows three tracks. -/
def clickedBelow : UIView :=
  run demoLib [(demoEnv, Call.PlaylistUpdated songs),
    (demoEnv, Call.MouseEventRequest 5 12 BUTTON1_CLICKED)] (UIView.new demoLib demoEnv)

/-- The three tracks loaded, search entered and cancelled with Escape: the player
pane is focused again, the remembered mode is Search and the stored result list
still holds the three tracks. -/
def searchCancelled : UIView :=
  run demoLib [(demoEnv, Call.PlaylistUpdated songs), (demoEnv, Call.Search),
    (demoEnv, Call.KeyPress 27)] (UIView.new demoLib demoEnv)

/-- The terminal of 80 columns and 24 lines, read at clock `t`. -/
def atClock (t : Int) : Env := { terminalWidth := 80, terminalHeight := 24, clock := t }

/-- A track name of 22 characters: with its suffix ` (0:00)` the text has 29
characters, two more than the 27 the player pane shows. -/
def longTitle : QString := "A Very Long Track Name".toList

/-- The track `longTitle` loaded at clock 0, then one render (a position
notification) at each of the given clock times. -/
def marqueeRun (clocks : List Int) : UIView :=
  run demoLib
    ((atClock 0, Call.PlaylistUpdated [longTitle]) ::
      clocks.map (fun t => (atClock t, Call.PositionChanged t)))
    (UIView.new demoLib (atClock 0))

/-- The invariant of the query and its cursor: `0 ≤ cursor ≤ length ≤ 26`. -/
def QueryInv (s : UIView) : Prop :=
  0 ≤ s.m_SearchStringPos ∧ s.m_SearchStringPos ≤ s.m_SearchString.length ∧
    (s.m_SearchString.length : Int) ≤ 26

/-- Search entered on the constructed view and the letter `a` typed 26 times. -/
def fullQuery : UIView :=
  run demoLib ((demoEnv, Call.Search) :: List.replicate 26 (demoEnv, Call.KeyPress 97))
    (UIView.new demoLib demoEnv)

instance (x y w h cx cy : Int) : Decidable (inRect x y w h cx cy) := by
  unfold inRect; infer_instance

/-- The value of the volume control for a click at column `x` of the slider. -/
def volumeAt (x : Int) : Int := 100 * (x - 11) / 20

/-- The value of the seek control for a click at column `x` of the slider. -/
def positionAt (x : Int) : Int := 100 * (x - 2) / 35

/-- The three tracks loaded, then a notification with no current track. -/
def noCurrentTrack : UIView :=
  run demoLib [(demoEnv, Call.PlaylistUpdated songs), (demoEnv, Call.CurrentIndexChanged (-1))]
    (UIView.new demoLib demoEnv)

/-- A terminal of 79 columns and 11 lines: no layout for the playlist pane fits. -/
def narrowEnv : Env := { terminalWidth := 79, terminalHeight := 11, clock := 0 }

/-- The three tracks loaded on the terminal of 80 by 24, where the playlist pane is
stacked below the player, then a render after the terminal shrank to 79 by 11. -/
def paneHidden : UIView :=
  run demoLib [(demoEnv, Call.PlaylistUpdated songs), (narrowEnv, Call.PositionChanged 0)]
    (UIView.new demoLib demoEnv)

/-- The catalog is one that `PlaylistUpdated` builds from a path sequence. -/
def CatalogBuilt (L : Lib) (s : UIView) : Prop :=
  ∃ p_Paths : List QString, s.m_Playlist = (UIView.buildPlaylist L p_Paths).1

/-- The scenario `searchedSongB`, then Escape, then `Search()` again after the terminal
shrank to 79 by 11: search mode with the playlist pane absent, the query empty and
the result list of the earlier query `song b` still stored. -/
def staleSearch : UIView :=
  run demoLib [(demoEnv, Call.KeyPress 27), (narrowEnv, Call.Search)] searchedSongB

/-- The scenario `staleSearch`, then the playlist replaced by a single track. -/
def staleSearchReplaced : UIView :=
  run demoLib [(narrowEnv, Call.PlaylistUpdated ["Only".toList])] staleSearch

open UIView

/-! ## Arithmetic of the Qt helpers -/

theorem qMax_eq_max (a b : Int) : qMax a b = max a b := by
  unfold qMax; split <;> omega

theorem qMin_eq_min (a b : Int) : qMin a b = min a b := by
  unfold qMin; split <;> omega

theorem qBound_eq_clamp (lo v hi : Int) : qBound lo v hi = clamp v lo hi := by
  unfold qBound clamp
  rw [qMax_eq_max, qMin_eq_min, min_comm]

/-! ## C1: the selection invariant -/

set_option maxRecDepth 100000 in
/-- C1 (fails on the code): on a freshly constructed view, whose catalog is empty,
one `SelectNext` (Down) leaves `m_PlaylistSelected = -1`, although the visible
list is empty and the invariant asks for `0`; and with three tracks shown, a
primary click on the sixth row of the playlist pane leaves
`m_PlaylistSelected = 5`, outside `[0, 2]`. -/
theorem C1_selection_leaves_bounds :
    (visibleList (run demoLib [(demoEnv, Call.SelectNext)] (UIView.new demoLib demoEnv)) = [] ∧
      (run demoLib [(demoEnv, Call.SelectNext)]
        (UIView.new demoLib demoEnv)).m_PlaylistSelected = -1 ∧
      ¬ SelectionInBounds
        (run demoLib [(demoEnv, Call.SelectNext)] (UIView.new demoLib demoEnv))) ∧
    ((visibleList clickedBelow).length = 3 ∧
      clickedBelow.m_PlaylistSelected = 5 ∧
      ¬ SelectionInBounds clickedBelow) := by
  decide

/-! ## C2: the layout -/

/-- C2: for every terminal width `W` and height `H`, `CreateWindows` creates the
player pane (40 x 6 at the origin) and picks the playlist pane by first match:
stacked below (40 wide, `H - 6` high, at `(0, 6)`) when `6 + 6 ≤ H`, else side by
side (40 wide, 6 high, at `(40, 0)`) when `40 + 40 ≤ W`, else absent; a present
playlist pane shares no cell with the player pane. -/
theorem C2_layout (W H : Int) (s : UIView) :
    let s' := UIView.CreateWindows { s with m_TerminalWidth := W, m_TerminalHeight := H }
    s'.m_PlayerWindow = true ∧
    (m_PlayerWindowWidth, m_PlayerWindowHeight, m_PlayerWindowX, m_PlayerWindowY)
      = (40, 6, 0, 0) ∧
    (if 6 + 6 ≤ H then
      s'.m_PlaylistWindow = true ∧
      (m_PlaylistWindowWidth, s'.m_PlaylistWindowHeight, s'.m_PlaylistWindowX,
        s'.m_PlaylistWindowY) = (40, H - 6, 0, 6)
    else if 40 + 40 ≤ W then
      s'.m_PlaylistWindow = true ∧
      (m_PlaylistWindowWidth, s'.m_PlaylistWindowHeight, s'.m_PlaylistWindowX,
        s'.m_PlaylistWindowY) = (40, 6, 40, 0)
    else s'.m_PlaylistWindow = false) ∧
    (s'.m_PlaylistWindow = false ∨
      ∀ cx cy : Int,
        ¬ (inRect m_PlayerWindowX m_PlayerWindowY m_PlayerWindowWidth m_PlayerWindowHeight
            cx cy ∧
          inRect s'.m_PlaylistWindowX s'.m_PlaylistWindowY m_PlaylistWindowWidth
            s'.m_PlaylistWindowHeight cx cy)) := by
  simp only [UIView.CreateWindows, inRect, m_PlayerWindowHeight, m_PlaylistWindowMinHeight,
    m_PlayerWindowWidth, m_PlaylistWindowWidth, m_PlayerWindowX, m_PlayerWindowY]
  by_cases h1 : (6 : Int) + 6 ≤ H
  · simp only [h1, if_true, true_and, Prod.mk.injEq, and_self]
    right
    intro cx cy
    omega
  · by_cases h2 : (40 : Int) + 40 ≤ W
    · simp only [h1, h2, if_true, if_false, true_and, Prod.mk.injEq, and_self]
      right
      intro cx cy
      omega
    · simp only [h1, h2, if_false, true_and, Prod.mk.injEq, and_self]
      left
      trivial

/-! ## C3: the scroll offset -/

theorem UIState_test_list (a : UIState) :
    a.test (UISTATE_PLAYER.bits ||| UISTATE_PLAYLIST.bits) = !(decide (a = UISTATE_SEARCH)) := by
  cases a <;> decide

theorem UIState_test_search (a : UIState) :
    a.test UISTATE_SEARCH.bits = decide (a = UISTATE_SEARCH) := by
  cases a <;> decide

/-- The offset stored by a render that draws the playlist pane, in terms of the
list that render shows. -/
theorem DrawPlaylist_offset (L : Lib) (s : UIView) (hw : s.m_PlaylistWindow = true) :
    (UIView.DrawPlaylist L s).m_PlaylistOffset =
      qBound 0 (s.m_PlaylistSelected - Int.tdiv (s.m_PlaylistWindowHeight - 2 - 1) 2)
        (qMax 0 ((visibleList (UIView.DrawPlaylist L s)).length
          - (s.m_PlaylistWindowHeight - 2))) := by
  unfold UIView.DrawPlaylist visibleList
  rw [hw]
  simp only [if_true, UIState_test_list]
  by_cases h : s.m_UIState = UISTATE_SEARCH
  · simp [h, UIView.drawTrackList]
  · simp [h, UIView.drawTrackList]

/-- C3: when the playlist pane is drawn with `viewRows = paneHeight - 2 ≥ 1` rows and
the selection `sel` lies inside the list shown (of size `n`), the stored
`scrollOffset` is `clamp(sel - (viewRows - 1) / 2, 0, max(0, n - viewRows))`, lies
in `[0, max(0, n - viewRows)]`, and `scrollOffset ≤ sel < scrollOffset + viewRows`. -/
theorem C3_scrollOffset (L : Lib) (s : UIView)
    (hw : s.m_PlaylistWindow = true)
    (hv : 1 ≤ s.m_PlaylistWindowHeight - 2)
    (hs : 0 ≤ s.m_PlaylistSelected ∧
      s.m_PlaylistSelected < (visibleList (UIView.DrawPlaylist L s)).length) :
    (UIView.DrawPlaylist L s).m_PlaylistOffset
      = clamp (s.m_PlaylistSelected - (s.m_PlaylistWindowHeight - 2 - 1) / 2) 0
          (max 0 ((visibleList (UIView.DrawPlaylist L s)).length
            - (s.m_PlaylistWindowHeight - 2))) ∧
    0 ≤ (UIView.DrawPlaylist L s).m_PlaylistOffset ∧
    (UIView.DrawPlaylist L s).m_PlaylistOffset
      ≤ max 0 ((visibleList (UIView.DrawPlaylist L s)).length
          - (s.m_PlaylistWindowHeight - 2)) ∧
    (UIView.DrawPlaylist L s).m_PlaylistOffset ≤ s.m_PlaylistSelected ∧
    s.m_PlaylistSelected
      < (UIView.DrawPlaylist L s).m_PlaylistOffset + (s.m_PlaylistWindowHeight - 2) := by
  obtain ⟨hs0, hs1⟩ := hs
  have hdiv : Int.tdiv (s.m_PlaylistWindowHeight - 2 - 1) 2
      = (s.m_PlaylistWindowHeight - 2 - 1) / 2 :=
    Int.tdiv_eq_ediv (by omega) (by omega)
  have hoff := DrawPlaylist_offset L s hw
  rw [hdiv, qBound_eq_clamp, qMax_eq_max] at hoff
  generalize (UIView.DrawPlaylist L s).m_PlaylistOffset = off at hoff ⊢
  generalize ((visibleList (UIView.DrawPlaylist L s)).length : Int) = n at hoff hs1 ⊢
  generalize s.m_PlaylistSelected = sel at hoff hs0 hs1 ⊢
  generalize s.m_PlaylistWindowHeight - 2 = v at hoff hv ⊢
  refine ⟨hoff, ?_⟩
  subst hoff
  unfold clamp
  omega

set_option maxRecDepth 100000 in
/-- C3, on a run: six tracks in a pane of four rows, the fifth track selected; the
stored offset is 2, so the rows show the tracks 2 to 5. -/
theorem C3_scrollOffset_witness :
    fifthPlaying.m_PlaylistWindow = true ∧
    1 ≤ fifthPlaying.m_PlaylistWindowHeight - 2 ∧
    (0 ≤ fifthPlaying.m_PlaylistSelected ∧
      fifthPlaying.m_PlaylistSelected
        < (visibleList (DrawPlaylist demoLib fifthPlaying)).length) ∧
    (DrawPlaylist demoLib fifthPlaying).m_PlaylistOffset = 2 ∧
    (DrawPlaylist demoLib fifthPlaying).m_PlaylistOffset ≤ fifthPlaying.m_PlaylistSelected ∧
    fifthPlaying.m_PlaylistSelected
      < (DrawPlaylist demoLib fifthPlaying).m_PlaylistOffset
        + (fifthPlaying.m_PlaylistWindowHeight - 2) :=
  have h := C3_scrollOffset demoLib fifthPlaying (by decide) (by decide) (by decide)
  ⟨by decide, by decide, by decide, h.1.trans (by decide), h.2.2.2.1, h.2.2.2.2⟩

/-! ## C4: the result list is the filtered catalog -/

theorem startsWithFold_iff (fold : Char → Char) (q s : QString) :
    startsWithFold fold q s = true ↔
      ∃ mid post : QString, s = mid ++ post ∧ mid.map fold = q.map fold := by
  induction q generalizing s with
  | nil =>
    simp only [startsWithFold, List.map_nil, List.map_eq_nil_iff, true_iff]
    exact ⟨[], s, rfl, rfl⟩
  | cons a qs ih =>
    cases s with
    | nil =>
      simp only [startsWithFold, Bool.false_eq_true, false_iff]
      rintro ⟨mid, post, h, hm⟩
      have : mid = [] := by
        cases mid with
        | nil => rfl
        | cons x xs => simp at h
      subst this
      simp at hm
    | cons c cs =>
      simp only [startsWithFold, Bool.and_eq_true, beq_iff_eq, ih cs]
      constructor
      · rintro ⟨hac, mid, post, h, hm⟩
        exact ⟨c :: mid, post, by simp [h], by simp [hm, hac]⟩
      · rintro ⟨mid, post, h, hm⟩
        cases mid with
        | nil => simp at hm
        | cons x xs =>
          simp only [List.cons_append, List.cons.injEq, List.map_cons] at h hm
          obtain ⟨rfl, h⟩ := h
          exact ⟨hm.1.symm, xs, post, h, hm.2⟩

/-- The search of `QString::contains` finds exactly the case-insensitive substrings. -/
theorem QString_contains_iff (fold : Char → Char) (s q : QString) :
    QString_contains fold s q = true ↔ IsSubstringCI fold q s := by
  unfold IsSubstringCI
  induction s with
  | nil =>
    simp only [QString_contains, startsWithFold_iff]
    constructor
    · rintro ⟨mid, post, h, hm⟩
      exact ⟨[], mid, post, by simpa using h, hm⟩
    · rintro ⟨pre, mid, post, h, hm⟩
      have hp : pre = [] := by
        cases pre with
        | nil => rfl
        | cons x xs => simp at h
      subst hp
      exact ⟨mid, post, by simpa using h, hm⟩
  | cons c cs ih =>
    simp only [QString_contains, Bool.or_eq_true, startsWithFold_iff, ih]
    constructor
    · rintro (⟨mid, post, h, hm⟩ | ⟨pre, mid, post, h, hm⟩)
      · exact ⟨[], mid, post, by simpa using h, hm⟩
      · exact ⟨c :: pre, mid, post, by simp [h], hm⟩
    · rintro ⟨pre, mid, post, h, hm⟩
      cases pre with
      | nil => exact Or.inl ⟨mid, post, by simpa using h, hm⟩
      | cons x xs =>
        simp only [List.cons_append, List.cons.injEq] at h
        exact Or.inr ⟨xs, mid, post, h.2, hm⟩

theorem QString_contains_empty (fold : Char → Char) (s : QString) :
    QString_contains fold s [] = true := by
  cases s <;> simp [QString_contains, startsWithFold]

/-- A loop that pushes the elements passing a test is a filter. -/
theorem foldl_push_eq_filter {α : Type} (p : α → Bool) (l acc : List α) :
    l.foldl (fun result x => if p x then result ++ [x] else result) acc
      = acc ++ l.filter p := by
  induction l generalizing acc with
  | nil => simp
  | cons x xs ih =>
    simp only [List.foldl_cons, ih, List.filter_cons]
    split <;> simp

theorem refreshResultlist_eq_filter (fold : Char → Char) (query : QString)
    (playlist : List TrackInfo) :
    UIView.refreshResultlist fold query playlist =
      playlist.filter (fun t =>
        QString_contains fold t.path query || QString_contains fold t.name query) := by
  unfold UIView.refreshResultlist
  rw [foldl_push_eq_filter]
  simp

theorem DrawPlaylist_resultlist (L : Lib) (s : UIView)
    (hw : s.m_PlaylistWindow = true) (hs : s.m_UIState = UISTATE_SEARCH) :
    (UIView.DrawPlaylist L s).m_Resultlist
      = UIView.refreshResultlist L.foldCase s.m_SearchString s.m_Playlist := by
  unfold UIView.DrawPlaylist
  simp [hw, hs, UIState_test_list, UIView.drawTrackList]

/-- C4: a render in search mode that draws the playlist pane rebuilds the result list
as the catalog filtered, in catalog order, by a test that holds exactly when the
query is a case-insensitive substring of the path or of the name of the entry;
with the empty query the result list is the whole catalog, unchanged. -/
theorem C4_resultlist (L : Lib) (s : UIView)
    (hw : s.m_PlaylistWindow = true) (hs : s.m_UIState = UISTATE_SEARCH) :
    (∃ p : TrackInfo → Bool,
      (∀ t, p t = true ↔ MatchesQuery L.foldCase s.m_SearchString t) ∧
      (UIView.DrawPlaylist L s).m_Resultlist = s.m_Playlist.filter p) ∧
    (s.m_SearchString = [] → (UIView.DrawPlaylist L s).m_Resultlist = s.m_Playlist) := by
  rw [DrawPlaylist_resultlist L s hw hs, refreshResultlist_eq_filter]
  refine ⟨⟨_, ?_, rfl⟩, ?_⟩
  · intro t
    simp only [Bool.or_eq_true, QString_contains_iff, MatchesQuery]
  · intro hq
    rw [hq]
    simp [QString_contains_empty]

set_option maxRecDepth 100000 in
/-- C4, on the scenario of the specification: with the names `Song A`, `Song B`,
`Song C` and the query `song b` typed in search mode, the rebuilt result list is
exactly the entry `Song B` with index 1. -/
theorem C4_resultlist_witness :
    searchedSongB.m_PlaylistWindow = true ∧
    searchedSongB.m_UIState = UISTATE_SEARCH ∧
    searchedSongB.m_Playlist.map TrackInfo.name = songs ∧
    searchedSongB.m_SearchString = "song b".toList ∧
    (UIView.DrawPlaylist demoLib searchedSongB).m_Resultlist
      = [{ path := "Song B".toList, name := "Song B".toList, duration := 0, index := 1 }] := by
  obtain ⟨⟨p, hp, hres⟩, _⟩ :=
    C4_resultlist demoLib searchedSongB (by decide) (by decide)
  refine ⟨by decide, by decide, by decide, by decide, ?_⟩
  have hpeq : p = fun t =>
      QString_contains demoLib.foldCase t.path searchedSongB.m_SearchString ||
        QString_contains demoLib.foldCase t.name searchedSongB.m_SearchString := by
    funext t
    rw [Bool.eq_iff_iff, hp t]
    simp only [Bool.or_eq_true, QString_contains_iff, MatchesQuery]
  rw [hres, hpeq]
  decide

/-! ## What a render leaves alone -/

theorem RenderFrame.rfl' (s : UIView) : RenderFrame s s := by
  constructor <;> rfl

theorem RenderFrame.trans {a b c : UIView} (h1 : RenderFrame a b) (h2 : RenderFrame b c) :
    RenderFrame a c := by
  constructor
  · exact h2.trackPositionSec.trans h1.trackPositionSec
  · exact h2.trackDurationSec.trans h1.trackDurationSec
  · exact h2.playlistPosition.trans h1.playlistPosition
  · exact h2.playlistSelected.trans h1.playlistSelected
  · exact h2.volumePercentage.trans h1.volumePercentage
  · exact h2.shuffle.trans h1.shuffle
  · exact h2.uiState.trans h1.uiState
  · exact h2.previousUIState.trans h1.previousUIState
  · exact h2.searchString.trans h1.searchString
  · exact h2.searchStringPos.trans h1.searchStringPos
  · exact h2.playlist.trans h1.playlist
  · exact h2.signals.trans h1.signals

theorem CreateWindows_frame (s : UIView) : RenderFrame s (CreateWindows s) := by
  unfold CreateWindows
  dsimp only
  split_ifs <;> constructor <;> rfl

theorem UpdateScreen_frame (e : Env) (s : UIView) : RenderFrame s (UpdateScreen e s) := by
  unfold UpdateScreen
  split_ifs
  · exact RenderFrame.trans (by constructor <;> rfl) (CreateWindows_frame _)
  · exact RenderFrame.rfl' s

theorem scrollStep_frame (now size n : Int) (s : UIView) :
    RenderFrame s (scrollStep now size n s) := by
  unfold scrollStep
  dsimp only
  split_ifs <;> constructor <;> rfl

theorem GetPlayerTrackName_frame (now n : Int) (s : UIView) (r : QString × UIView)
    (h : GetPlayerTrackName now n s = some r) : RenderFrame s r.2 := by
  unfold GetPlayerTrackName at h
  split at h
  · cases h
  · split at h
    · cases h
      exact scrollStep_frame _ _ _ _
    · cases h
      exact RenderFrame.rfl' s

theorem DrawPlayer_frame (e : Env) (s : UIView) : RenderFrame s (DrawPlayer e s) := by
  unfold DrawPlayer
  split
  · split
    · next t s' h => exact GetPlayerTrackName_frame _ _ _ _ h
    · constructor <;> rfl
  · exact RenderFrame.rfl' s

theorem DrawPlaylist_frame (L : Lib) (s : UIView) : RenderFrame s (DrawPlaylist L s) := by
  unfold DrawPlaylist drawTrackList
  dsimp only
  split_ifs <;> constructor <;> rfl

theorem Refresh_frame (L : Lib) (e : Env) (s : UIView) : RenderFrame s (Refresh L e s) :=
  ((UpdateScreen_frame e s).trans (DrawPlayer_frame e _)).trans (DrawPlaylist_frame L _)


/-! ## Projections of `Refresh` and `SetUIState` -/

section
variable (L : Lib) (e : Env) (s : UIView)
@[simp] theorem Refresh_trackPositionSec : (Refresh L e s).m_TrackPositionSec = s.m_TrackPositionSec := (Refresh_frame L e s).trackPositionSec
@[simp] theorem Refresh_trackDurationSec : (Refresh L e s).m_TrackDurationSec = s.m_TrackDurationSec := (Refresh_frame L e s).trackDurationSec
@[simp] theorem Refresh_playlistPosition : (Refresh L e s).m_PlaylistPosition = s.m_PlaylistPosition := (Refresh_frame L e s).playlistPosition
@[simp] theorem Refresh_playlistSelected : (Refresh L e s).m_PlaylistSelected = s.m_PlaylistSelected := (Refresh_frame L e s).playlistSelected
@[simp] theorem Refresh_uiState : (Refresh L e s).m_UIState = s.m_UIState := (Refresh_frame L e s).uiState
@[simp] theorem Refresh_previousUIState : (Refresh L e s).m_PreviousUIState = s.m_PreviousUIState := (Refresh_frame L e s).previousUIState
@[simp] theorem Refresh_searchString : (Refresh L e s).m_SearchString = s.m_SearchString := (Refresh_frame L e s).searchString
@[simp] theorem Refresh_searchStringPos : (Refresh L e s).m_SearchStringPos = s.m_SearchStringPos := (Refresh_frame L e s).searchStringPos
@[simp] theorem Refresh_playlist : (Refresh L e s).m_Playlist = s.m_Playlist := (Refresh_frame L e s).playlist
@[simp] theorem Refresh_signals : (Refresh L e s).signals = s.signals := (Refresh_frame L e s).signals
end

section
variable (st : UIState) (s : UIView)
@[simp] theorem SetUIState_uiState : (SetUIState st s).m_UIState = st := by
  unfold SetUIState emit; dsimp only; split_ifs <;> rfl
@[simp] theorem SetUIState_previousUIState : (SetUIState st s).m_PreviousUIState = s.m_UIState := by
  unfold SetUIState emit; dsimp only; split_ifs <;> rfl
@[simp] theorem SetUIState_playlistPosition : (SetUIState st s).m_PlaylistPosition = s.m_PlaylistPosition := by
  unfold SetUIState emit; dsimp only; split_ifs <;> rfl
@[simp] theorem SetUIState_playlist : (SetUIState st s).m_Playlist = s.m_Playlist := by
  unfold SetUIState emit; dsimp only; split_ifs <;> rfl
@[simp] theorem SetUIState_signals : (SetUIState st s).signals = s.signals ++ [Signal.UIStateUpdated st] := by
  unfold SetUIState emit; dsimp only; split_ifs <;> rfl
@[simp] theorem SetUIState_playlistSelected : (SetUIState st s).m_PlaylistSelected = if st = UISTATE_SEARCH then 0 else s.m_PlaylistPosition := by
  unfold SetUIState emit; cases st <;> simp [UIState_test_search]
@[simp] theorem SetUIState_searchString : (SetUIState st s).m_SearchString = if st = UISTATE_SEARCH then [] else s.m_SearchString := by
  unfold SetUIState emit; cases st <;> simp [UIState_test_search]
@[simp] theorem SetUIState_searchStringPos : (SetUIState st s).m_SearchStringPos = if st = UISTATE_SEARCH then 0 else s.m_SearchStringPos := by
  unfold SetUIState emit; cases st <;> simp [UIState_test_search]
end

theorem buildPlaylist_foldl (L : Lib) (paths : List QString) (acc : List TrackInfo) (k : Int) :
    paths.foldl (fun acc trackPath => (acc.1 ++ [trackInfoOf L trackPath acc.2], acc.2 + 1))
      (acc, k) = (acc ++ catalogFrom L k paths, k + paths.length) := by
  induction paths generalizing acc k with
  | nil => simp [catalogFrom]
  | cons p ps ih =>
    simp only [List.foldl_cons, ih, catalogFrom, List.append_assoc, List.singleton_append,
      List.length_cons, Nat.cast_add, Nat.cast_one, Prod.mk.injEq, true_and]
    omega

theorem buildPlaylist_eq (L : Lib) (paths : List QString) :
    (buildPlaylist L paths).1 = catalogFrom L 0 paths := by
  unfold buildPlaylist
  rw [buildPlaylist_foldl]
  simp

theorem catalogFrom_getElem? (L : Lib) (k : Int) (paths : List QString) (i : Nat) :
    (catalogFrom L k paths)[i]? = paths[i]?.map (fun p => trackInfoOf L p (k + i)) := by
  induction paths generalizing k i with
  | nil => simp [catalogFrom]
  | cons p ps ih =>
    cases i with
    | zero => simp [catalogFrom]
    | succ i =>
      simp only [catalogFrom, List.getElem?_cons_succ, ih, Nat.cast_add, Nat.cast_one]
      congr 1
      funext q
      congr 1
      omega

theorem QVector_at_natCast {α : Type} (v : List α) (i : Nat) :
    QVector_at v (i : Int) = v[i]? := by
  unfold QVector_at
  by_cases h : i < v.length
  · simp [h]
  · simp [h]
    omega

theorem catalogFrom_at_index (L : Lib) (paths : List QString) (r : TrackInfo)
    (hr : r ∈ catalogFrom L 0 paths) :
    QVector_at (catalogFrom L 0 paths) r.index = some r := by
  obtain ⟨i, hi⟩ := List.mem_iff_getElem?.mp hr
  have h := hi
  rw [catalogFrom_getElem?] at h
  cases hp : paths[i]? with
  | none => simp [hp] at h
  | some p =>
    simp only [hp, Option.map_some', Option.some.injEq, zero_add] at h
    have hidx : r.index = (i : Int) := by rw [← h]; rfl
    rw [hidx, QVector_at_natCast]
    exact hi


/-! ## Enter on a current result list -/

theorem KeyPress_enter_signals (L : Lib) (e : Env) (s : UIView) :
    (KeyPress L e 10 s).signals =
      (if s.m_PlaylistSelected < s.m_Resultlist.length then
        match QVector_at s.m_Resultlist s.m_PlaylistSelected with
        | some t => s.signals ++ [Signal.SetCurrentIndex t.index]
        | none => s.signals
      else s.signals) ++ [Signal.UIStateUpdated s.m_PreviousUIState] := by
  have h10 : (ispunct 10 || isalnum 10 || (10 : Int) == 32) = false := by decide
  unfold KeyPress
  simp only [h10, Bool.false_eq_true, if_false, if_true, Refresh_signals, SetUIState_signals]
  split_ifs
  · split <;> simp_all [emit]
  · rfl

/-- Enter on a result list that is current: for the catalog `PlaylistUpdated` builds
from a path sequence (entry `i` holds path `i` and index `i`) and a stored result
list that is the one rebuilt from it for the query, every result `r` satisfies
`catalog[r.index] = r`; Enter with `0 ≤ selectedIndex < resultList.size` emits
exactly one `SetCurrentIndex(k)`, with `catalog[k] = resultList[selectedIndex]`,
followed by the state notification, and with `selectedIndex ≥ resultList.size` it
emits the state notification only. -/
theorem enter_activates_of_current (L : Lib) (e : Env) (p_Paths : List QString) (s : UIView)
    (hcat : s.m_Playlist = (buildPlaylist L p_Paths).1)
    (_hs : s.m_UIState = UISTATE_SEARCH)
    (hres : s.m_Resultlist = refreshResultlist L.foldCase s.m_SearchString s.m_Playlist) :
    (∀ i : Nat, i < p_Paths.length →
      ∃ t, QVector_at s.m_Playlist i = some t ∧ some t.path = p_Paths[i]? ∧ t.index = i) ∧
    (∀ r ∈ s.m_Resultlist, QVector_at s.m_Playlist r.index = some r) ∧
    (0 ≤ s.m_PlaylistSelected ∧ s.m_PlaylistSelected < s.m_Resultlist.length →
      ∃ r, QVector_at s.m_Resultlist s.m_PlaylistSelected = some r ∧
        QVector_at s.m_Playlist r.index = some r ∧
        (KeyPress L e 10 s).signals =
          s.signals ++ [Signal.SetCurrentIndex r.index,
            Signal.UIStateUpdated s.m_PreviousUIState]) ∧
    ((s.m_Resultlist.length : Int) ≤ s.m_PlaylistSelected →
      (KeyPress L e 10 s).signals =
        s.signals ++ [Signal.UIStateUpdated s.m_PreviousUIState]) := by
  have hall : ∀ r ∈ s.m_Resultlist, QVector_at s.m_Playlist r.index = some r := by
    intro r hr
    rw [hres, refreshResultlist_eq_filter] at hr
    have hmem := (List.mem_filter.mp hr).1
    rw [hcat, buildPlaylist_eq] at hmem ⊢
    exact catalogFrom_at_index L p_Paths r hmem
  refine ⟨?_, hall, ?_, ?_⟩
  · intro i hi
    rw [hcat, buildPlaylist_eq, QVector_at_natCast, catalogFrom_getElem?]
    refine ⟨trackInfoOf L p_Paths[i] i, ?_, ?_, ?_⟩
    · simp [List.getElem?_eq_getElem hi]
    · simp [List.getElem?_eq_getElem hi, trackInfoOf]
    · rfl
  · rintro ⟨h0, h1⟩
    have hget : QVector_at s.m_Resultlist s.m_PlaylistSelected
        = s.m_Resultlist[s.m_PlaylistSelected.toNat]? := by
      unfold QVector_at
      simp [h0, h1]
    have hlt : s.m_PlaylistSelected.toNat < s.m_Resultlist.length := by omega
    refine ⟨s.m_Resultlist[s.m_PlaylistSelected.toNat], ?_, ?_, ?_⟩
    · rw [hget, List.getElem?_eq_getElem hlt]
    · exact hall _ (List.getElem_mem _)
    · rw [KeyPress_enter_signals, if_pos h1, hget, List.getElem?_eq_getElem hlt]
      simp
  · intro h
    rw [KeyPress_enter_signals, if_neg (by omega)]

/-! ## C6: search, then cancel -/

/-- Any key other than Enter and Escape leaves the mode, the remembered mode and the
playing index as they are. -/
theorem KeyPress_other_mode (L : Lib) (e : Env) (k : Int) (s : UIView)
    (h10 : k ≠ 10) (h27 : k ≠ 27) :
    (KeyPress L e k s).m_UIState = s.m_UIState ∧
    (KeyPress L e k s).m_PreviousUIState = s.m_PreviousUIState ∧
    (KeyPress L e k s).m_PlaylistPosition = s.m_PlaylistPosition := by
  unfold KeyPress
  simp only [Refresh_uiState, Refresh_previousUIState, Refresh_playlistPosition, h10, h27,
    if_false]
  split_ifs <;> exact ⟨rfl, rfl, rfl⟩

theorem KeyPress_escape_mode (L : Lib) (e : Env) (s : UIView) :
    (KeyPress L e 27 s).m_UIState = s.m_PreviousUIState ∧
    (KeyPress L e 27 s).m_PreviousUIState = s.m_UIState ∧
    (KeyPress L e 27 s).m_PlaylistPosition = s.m_PlaylistPosition ∧
    (KeyPress L e 27 s).m_PlaylistSelected =
      if s.m_PreviousUIState = UISTATE_SEARCH then 0 else s.m_PlaylistPosition := by
  have h : (ispunct 27 || isalnum 27 || (27 : Int) == 32) = false := by decide
  have h10 : ¬ ((27 : Int) = 10) := by decide
  have hl : ¬ ((27 : Int) = KEY_LEFT) := by decide
  have hr : ¬ ((27 : Int) = KEY_RIGHT) := by decide
  have hu : ¬ ((27 : Int) = KEY_UP) := by decide
  have hd : ¬ ((27 : Int) = KEY_DOWN) := by decide
  have hb : ¬ ((27 : Int) = KEY_BACKSPACE) := by decide
  unfold KeyPress
  simp only [h, h10, hl, hr, hu, hd, hb, Bool.false_eq_true, if_false, if_true, Refresh_uiState,
    Refresh_previousUIState, Refresh_playlistPosition, Refresh_playlistSelected,
    SetUIState_uiState, SetUIState_previousUIState, SetUIState_playlistPosition,
    SetUIState_playlistSelected, and_self]

/-- The keys pressed one after another, each in its environment. -/
theorem run_keys_mode (L : Lib) (keys : List (Env × Int)) (s : UIView)
    (hk : ∀ k ∈ keys, k.2 ≠ 10 ∧ k.2 ≠ 27) :
    (run L (keys.map (fun k => (k.1, Call.KeyPress k.2))) s).m_UIState = s.m_UIState ∧
    (run L (keys.map (fun k => (k.1, Call.KeyPress k.2))) s).m_PreviousUIState
      = s.m_PreviousUIState := by
  induction keys generalizing s with
  | nil => exact ⟨rfl, rfl⟩
  | cons k ks ih =>
    have hk0 := hk k (List.mem_cons_self _ _)
    have hstep := KeyPress_other_mode L k.1 k.2 s hk0.1 hk0.2
    have := ih (KeyPress L k.1 k.2 s) (fun k' hk' => hk k' (List.mem_cons_of_mem _ hk'))
    simp only [List.map_cons, run, List.foldl_cons, step] at this ⊢
    rw [this.1, this.2, hstep.1, hstep.2.1]
    exact ⟨rfl, rfl⟩

/-- C6: from a state whose UIState is Playlist, `Search()`, then any keys other than
Enter and Escape (the keys that edit the query or move the selection, and the
ignored ones), then Escape, end with UIState = Playlist and
selectedIndex = playingIndex. -/
theorem C6_search_then_escape (L : Lib) (e0 e1 : Env) (keys : List (Env × Int)) (s : UIView)
    (hs : s.m_UIState = UISTATE_PLAYLIST)
    (hk : ∀ k ∈ keys, k.2 ≠ 10 ∧ k.2 ≠ 27) :
    (KeyPress L e1 27
      (run L (keys.map (fun k => (k.1, Call.KeyPress k.2))) (Search L e0 s))).m_UIState
      = UISTATE_PLAYLIST ∧
    (KeyPress L e1 27
      (run L (keys.map (fun k => (k.1, Call.KeyPress k.2))) (Search L e0 s))).m_PlaylistSelected
      = (KeyPress L e1 27
          (run L (keys.map (fun k => (k.1, Call.KeyPress k.2)))
            (Search L e0 s))).m_PlaylistPosition := by
  have hrun := run_keys_mode L keys (Search L e0 s) hk
  have hprev : (Search L e0 s).m_PreviousUIState = UISTATE_PLAYLIST := by
    simp [Search, hs]
  have hesc := KeyPress_escape_mode L e1
    (run L (keys.map (fun k => (k.1, Call.KeyPress k.2))) (Search L e0 s))
  rw [hrun.2, hprev] at hesc
  refine ⟨hesc.1, ?_⟩
  rw [hesc.2.2.2, hesc.2.2.1]
  simp

set_option maxRecDepth 100000 in
/-- C6, on the scenario: playlist focused, search, the keys `s`, Down, Backspace,
then Escape. -/
theorem C6_search_then_escape_witness :
    playlistFocused.m_UIState = UISTATE_PLAYLIST ∧
    (∀ k ∈ [(demoEnv, (115 : Int)), (demoEnv, KEY_DOWN), (demoEnv, KEY_BACKSPACE)],
      k.2 ≠ 10 ∧ k.2 ≠ 27) ∧
    ((KeyPress demoLib demoEnv 27
      (run demoLib
        ([(demoEnv, (115 : Int)), (demoEnv, KEY_DOWN), (demoEnv, KEY_BACKSPACE)].map
          (fun k => (k.1, Call.KeyPress k.2)))
        (Search demoLib demoEnv playlistFocused))).m_UIState = UISTATE_PLAYLIST ∧
    (KeyPress demoLib demoEnv 27
      (run demoLib
        ([(demoEnv, (115 : Int)), (demoEnv, KEY_DOWN), (demoEnv, KEY_BACKSPACE)].map
          (fun k => (k.1, Call.KeyPress k.2)))
        (Search demoLib demoEnv playlistFocused))).m_PlaylistSelected
      = (KeyPress demoLib demoEnv 27
          (run demoLib
            ([(demoEnv, (115 : Int)), (demoEnv, KEY_DOWN), (demoEnv, KEY_BACKSPACE)].map
              (fun k => (k.1, Call.KeyPress k.2)))
            (Search demoLib demoEnv playlistFocused))).m_PlaylistPosition) :=
  ⟨by decide, by decide,
    C6_search_then_escape demoLib demoEnv demoEnv _ playlistFocused (by decide) (by decide)⟩

/-! ## C7: the remembered mode -/

theorem KeyPress_enter_mode (L : Lib) (e : Env) (s : UIView) :
    (KeyPress L e 10 s).m_UIState = s.m_PreviousUIState ∧
    (KeyPress L e 10 s).m_PreviousUIState = s.m_UIState := by
  have h : (ispunct 10 || isalnum 10 || (10 : Int) == 32) = false := by decide
  unfold KeyPress
  simp only [h, Bool.false_eq_true, if_false, if_true, Refresh_uiState,
    Refresh_previousUIState, SetUIState_uiState, SetUIState_previousUIState]
  split_ifs
  · split <;> exact ⟨rfl, rfl⟩
  · exact ⟨rfl, rfl⟩

theorem ToggleWindow_mode (L : Lib) (e : Env) (s : UIView) :
    ((ToggleWindow L e s).m_UIState, (ToggleWindow L e s).m_PreviousUIState) =
      match s.m_UIState with
      | UISTATE_PLAYER => (UISTATE_PLAYLIST, UISTATE_PLAYER)
      | UISTATE_PLAYLIST => (UISTATE_PLAYER, UISTATE_PLAYLIST)
      | UISTATE_SEARCH => (UISTATE_SEARCH, s.m_PreviousUIState) := by
  unfold ToggleWindow
  cases h : s.m_UIState <;> simp [h]

theorem mouseFocus_mode (L : Lib) (e : Env) (x y : Int) (s : UIView) :
    ((mouseFocus L e x y s).m_UIState = s.m_UIState ∧
      (mouseFocus L e x y s).m_PreviousUIState = s.m_PreviousUIState) ∨
    (mouseFocus L e x y s).m_UIState ≠ UISTATE_SEARCH := by
  unfold mouseFocus
  split_ifs
  · right; simp
  · left; exact ⟨rfl, rfl⟩
  · right; simp
  · left; exact ⟨rfl, rfl⟩
  · left; exact ⟨rfl, rfl⟩

theorem mouseClick_mode (L : Lib) (e : Env) (x y : Int) (s : UIView) :
    (mouseClick L e x y s).m_UIState = s.m_UIState ∧
    (mouseClick L e x y s).m_PreviousUIState = s.m_PreviousUIState := by
  unfold mouseClick emit
  split_ifs <;> simp

theorem mouseDoubleClick_mode (L : Lib) (e : Env) (x y : Int) (s : UIView) :
    (mouseDoubleClick L e x y s).m_UIState = s.m_UIState ∧
    (mouseDoubleClick L e x y s).m_PreviousUIState = s.m_PreviousUIState := by
  unfold mouseDoubleClick emit
  split_ifs <;> simp

theorem mouseScrollDown_mode (L : Lib) (e : Env) (s : UIView) :
    (mouseScrollDown L e s).m_UIState = s.m_UIState ∧
    (mouseScrollDown L e s).m_PreviousUIState = s.m_PreviousUIState := by
  unfold mouseScrollDown emit
  split_ifs <;> simp

theorem mouseScrollUp_mode (L : Lib) (e : Env) (s : UIView) :
    (mouseScrollUp L e s).m_UIState = s.m_UIState ∧
    (mouseScrollUp L e s).m_PreviousUIState = s.m_PreviousUIState := by
  unfold mouseScrollUp emit
  split_ifs <;> simp

/-- The blocks of `MouseEventRequest` after the focus block keep the mode. -/
theorem mouseRest_mode (L : Lib) (e : Env) (x y : Int) (b : Nat) (s : UIView) :
    (MouseEventRequest L e x y b s).m_UIState = (mouseFocus L e x y s).m_UIState ∧
    (MouseEventRequest L e x y b s).m_PreviousUIState
      = (mouseFocus L e x y s).m_PreviousUIState := by
  unfold MouseEventRequest
  dsimp only
  split_ifs <;>
    simp only [(mouseScrollUp_mode L e _).1, (mouseScrollUp_mode L e _).2,
      (mouseScrollDown_mode L e _).1, (mouseScrollDown_mode L e _).2,
      (mouseDoubleClick_mode L e x y _).1, (mouseDoubleClick_mode L e x y _).2,
      (mouseClick_mode L e x y _).1, (mouseClick_mode L e x y _).2, and_self]

/-- In search mode the remembered mode is not search mode. -/
theorem step_keeps_previous (L : Lib) (e : Env) (c : Call) (s : UIView)
    (hinv : s.m_UIState = UISTATE_SEARCH → s.m_PreviousUIState ≠ UISTATE_SEARCH)
    (hc : AllowedIn c s) :
    (step L e c s).m_UIState = UISTATE_SEARCH →
      (step L e c s).m_PreviousUIState ≠ UISTATE_SEARCH := by
  cases c with
  | Search =>
    have hc' : s.m_UIState ≠ UISTATE_SEARCH := hc
    simp [step, Search, hc']
  | ToggleWindow =>
    have h := ToggleWindow_mode L e s
    simp only [step]
    cases hs : s.m_UIState <;> simp only [hs, Prod.mk.injEq] at h hinv <;> rw [h.1, h.2] <;>
      simp_all
  | KeyPress k =>
    simp only [step]
    by_cases h10 : k = 10
    · subst h10
      rw [(KeyPress_enter_mode L e s).1, (KeyPress_enter_mode L e s).2]
      intro hp hs
      exact hinv hs hp
    · by_cases h27 : k = 27
      · subst h27
        rw [(KeyPress_escape_mode L e s).1, (KeyPress_escape_mode L e s).2.1]
        intro hp hs
        exact hinv hs hp
      · have h := KeyPress_other_mode L e k s h10 h27
        rw [h.1, h.2.1]
        exact hinv
  | MouseEventRequest x y b =>
    simp only [step]
    rw [(mouseRest_mode L e x y b s).1, (mouseRest_mode L e x y b s).2]
    rcases mouseFocus_mode L e x y s with h | h
    · rw [h.1, h.2]; exact hinv
    · intro h'; exact absurd h' h
  | PlaySelected => simpa [step, PlaySelected, emit] using hinv
  | PlaylistUpdated p => simpa [step, PlaylistUpdated] using hinv
  | PositionChanged p => simpa [step, PositionChanged] using hinv
  | DurationChanged p => simpa [step, DurationChanged] using hinv
  | CurrentIndexChanged p => simpa [step, CurrentIndexChanged] using hinv
  | VolumeChanged p => simpa [step, VolumeChanged] using hinv
  | PlaybackModeUpdated p => simpa [step, PlaybackModeUpdated] using hinv
  | SelectPrevious => simpa [step, SelectPrevious] using hinv
  | SelectNext => simpa [step, SelectNext] using hinv
  | PagePrevious => simpa [step, PagePrevious] using hinv
  | PageNext => simpa [step, PageNext] using hinv

theorem run_keeps_previous (L : Lib) (calls : List (Env × Call)) (s : UIView)
    (hinv : s.m_UIState = UISTATE_SEARCH → s.m_PreviousUIState ≠ UISTATE_SEARCH)
    (hc : SearchFromOutside L calls s) :
    (run L calls s).m_UIState = UISTATE_SEARCH →
      (run L calls s).m_PreviousUIState ≠ UISTATE_SEARCH := by
  induction calls generalizing s with
  | nil => exact hinv
  | cons ec rest ih =>
    exact ih (step L ec.1 ec.2 s) (step_keeps_previous L ec.1 ec.2 s hinv hc.1) hc.2

/-- C7 (fails as stated): `Search()` called twice from the constructed view leaves
UIState = Search with previousState = Search, and Escape then stays in Search. -/
theorem C7_search_twice :
    (run demoLib [(demoEnv, Call.Search), (demoEnv, Call.Search)]
      (UIView.new demoLib demoEnv)).m_UIState = UISTATE_SEARCH ∧
    (run demoLib [(demoEnv, Call.Search), (demoEnv, Call.Search)]
      (UIView.new demoLib demoEnv)).m_PreviousUIState = UISTATE_SEARCH ∧
    (KeyPress demoLib demoEnv 27
      (run demoLib [(demoEnv, Call.Search), (demoEnv, Call.Search)]
        (UIView.new demoLib demoEnv))).m_UIState = UISTATE_SEARCH := by
  decide

/-- C7, amended: in every state reached from the constructed view by public calls
among which `Search()` is only made while UIState is Player or Playlist, if
UIState is Search then previousState is Player or Playlist, and Escape lands in
Player or Playlist. -/
theorem C7_previous_in_search (L : Lib) (e0 e : Env) (calls : List (Env × Call))
    (hc : SearchFromOutside L calls (UIView.new L e0))
    (hs : (run L calls (UIView.new L e0)).m_UIState = UISTATE_SEARCH) :
    ((run L calls (UIView.new L e0)).m_PreviousUIState = UISTATE_PLAYER ∨
      (run L calls (UIView.new L e0)).m_PreviousUIState = UISTATE_PLAYLIST) ∧
    ((KeyPress L e 27 (run L calls (UIView.new L e0))).m_UIState = UISTATE_PLAYER ∨
      (KeyPress L e 27 (run L calls (UIView.new L e0))).m_UIState = UISTATE_PLAYLIST) := by
  have hnew : (UIView.new L e0).m_UIState = UISTATE_SEARCH →
      (UIView.new L e0).m_PreviousUIState ≠ UISTATE_SEARCH := by
    simp [UIView.new, members]
  have h := run_keeps_previous L calls _ hnew hc hs
  rw [(KeyPress_escape_mode L e _).1]
  cases hp : (run L calls (UIView.new L e0)).m_PreviousUIState <;> simp_all

/-- C7, amended, on a run: toggle to the playlist, then search. -/
theorem C7_previous_in_search_witness :
    SearchFromOutside demoLib [(demoEnv, Call.ToggleWindow), (demoEnv, Call.Search)]
      (UIView.new demoLib demoEnv) ∧
    (run demoLib [(demoEnv, Call.ToggleWindow), (demoEnv, Call.Search)]
      (UIView.new demoLib demoEnv)).m_UIState = UISTATE_SEARCH ∧
    (((run demoLib [(demoEnv, Call.ToggleWindow), (demoEnv, Call.Search)]
        (UIView.new demoLib demoEnv)).m_PreviousUIState = UISTATE_PLAYER ∨
      (run demoLib [(demoEnv, Call.ToggleWindow), (demoEnv, Call.Search)]
        (UIView.new demoLib demoEnv)).m_PreviousUIState = UISTATE_PLAYLIST) ∧
    ((KeyPress demoLib demoEnv 27
        (run demoLib [(demoEnv, Call.ToggleWindow), (demoEnv, Call.Search)]
          (UIView.new demoLib demoEnv))).m_UIState = UISTATE_PLAYER ∨
      (KeyPress demoLib demoEnv 27
        (run demoLib [(demoEnv, Call.ToggleWindow), (demoEnv, Call.Search)]
          (UIView.new demoLib demoEnv))).m_UIState = UISTATE_PLAYLIST)) :=
  have hc : SearchFromOutside demoLib [(demoEnv, Call.ToggleWindow), (demoEnv, Call.Search)]
      (UIView.new demoLib demoEnv) :=
    ⟨trivial,
      (by decide : (step demoLib demoEnv Call.ToggleWindow
        (UIView.new demoLib demoEnv)).m_UIState ≠ UISTATE_SEARCH),
      trivial⟩
  ⟨hc, by decide, C7_previous_in_search demoLib demoEnv demoEnv _ hc (by decide)⟩

/-! ## C8 and C9: toggling the focus, moving in the playlist -/

/-- C8: `ToggleWindow` takes Player to Playlist and Playlist to Player, each time
setting selectedIndex to playingIndex, and a second `ToggleWindow` returns to the
original UIState; from Search it leaves UIState, previousState, the query, the
cursor and selectedIndex unchanged (and emits nothing). -/
theorem C8_toggleWindow (L : Lib) (e e' : Env) (s : UIView) :
    (s.m_UIState = UISTATE_PLAYER →
      (ToggleWindow L e s).m_UIState = UISTATE_PLAYLIST ∧
      (ToggleWindow L e s).m_PlaylistSelected = s.m_PlaylistPosition ∧
      (ToggleWindow L e s).m_PlaylistPosition = s.m_PlaylistPosition ∧
      (ToggleWindow L e' (ToggleWindow L e s)).m_UIState = UISTATE_PLAYER) ∧
    (s.m_UIState = UISTATE_PLAYLIST →
      (ToggleWindow L e s).m_UIState = UISTATE_PLAYER ∧
      (ToggleWindow L e s).m_PlaylistSelected = s.m_PlaylistPosition ∧
      (ToggleWindow L e s).m_PlaylistPosition = s.m_PlaylistPosition ∧
      (ToggleWindow L e' (ToggleWindow L e s)).m_UIState = UISTATE_PLAYLIST) ∧
    (s.m_UIState = UISTATE_SEARCH →
      (ToggleWindow L e s).m_UIState = s.m_UIState ∧
      (ToggleWindow L e s).m_PreviousUIState = s.m_PreviousUIState ∧
      (ToggleWindow L e s).m_SearchString = s.m_SearchString ∧
      (ToggleWindow L e s).m_SearchStringPos = s.m_SearchStringPos ∧
      (ToggleWindow L e s).m_PlaylistSelected = s.m_PlaylistSelected ∧
      (ToggleWindow L e s).signals = s.signals) := by
  refine ⟨?_, ?_, ?_⟩
  · intro h
    have h1 : (ToggleWindow L e s).m_UIState = UISTATE_PLAYLIST := by
      simp [ToggleWindow, h]
    refine ⟨h1, by simp [ToggleWindow, h], by simp [ToggleWindow, h], ?_⟩
    have h2 := ToggleWindow_mode L e' (ToggleWindow L e s)
    rw [h1] at h2
    exact (Prod.mk.inj h2).1
  · intro h
    have h1 : (ToggleWindow L e s).m_UIState = UISTATE_PLAYER := by
      simp [ToggleWindow, h]
    refine ⟨h1, by simp [ToggleWindow, h], by simp [ToggleWindow, h], ?_⟩
    have h2 := ToggleWindow_mode L e' (ToggleWindow L e s)
    rw [h1] at h2
    exact (Prod.mk.inj h2).1
  · intro h
    simp [ToggleWindow, h]

/-- C8, on the scenario: from the player pane, with the second track playing. -/
theorem C8_toggleWindow_witness :
    playerFocused.m_UIState = UISTATE_PLAYER ∧
    (ToggleWindow demoLib demoEnv playerFocused).m_UIState = UISTATE_PLAYLIST ∧
    (ToggleWindow demoLib demoEnv playerFocused).m_PlaylistSelected = 1 ∧
    (ToggleWindow demoLib demoEnv (ToggleWindow demoLib demoEnv playerFocused)).m_UIState
      = UISTATE_PLAYER :=
  have h := (C8_toggleWindow demoLib demoEnv demoEnv playerFocused).1 (by decide)
  ⟨by decide, h.1, h.2.1.trans (by decide), h.2.2.2⟩

/-- C9: with a non-empty catalog of size `n` and `playingIndex = p` in `[0, n - 1]`,
`ToggleWindow` from Player enters Playlist with selectedIndex = `p`; afterwards, in
any state `t` with that catalog, `SelectNext` sets selectedIndex to
`min(selectedIndex + 1, n - 1)` and `SelectPrevious` to `max(selectedIndex - 1, 0)`,
both keeping the catalog and the mode, and keeping a selection inside
`[0, n - 1]` inside it. -/
theorem C9_playlist_navigation (L : Lib) (e : Env) (s : UIView)
    (hn : s.m_Playlist ≠ [])
    (hp : 0 ≤ s.m_PlaylistPosition ∧ s.m_PlaylistPosition ≤ (s.m_Playlist.length : Int) - 1)
    (hs : s.m_UIState = UISTATE_PLAYER) :
    (ToggleWindow L e s).m_UIState = UISTATE_PLAYLIST ∧
    (ToggleWindow L e s).m_PlaylistSelected = s.m_PlaylistPosition ∧
    (ToggleWindow L e s).m_Playlist = s.m_Playlist ∧
    (0 ≤ (ToggleWindow L e s).m_PlaylistSelected ∧
      (ToggleWindow L e s).m_PlaylistSelected ≤ (s.m_Playlist.length : Int) - 1) ∧
    ∀ (e' : Env) (t : UIView), t.m_Playlist = s.m_Playlist →
      (SelectNext L e' t).m_PlaylistSelected
        = min (t.m_PlaylistSelected + 1) ((s.m_Playlist.length : Int) - 1) ∧
      (SelectPrevious L e' t).m_PlaylistSelected = max (t.m_PlaylistSelected - 1) 0 ∧
      (SelectNext L e' t).m_Playlist = s.m_Playlist ∧
      (SelectPrevious L e' t).m_Playlist = s.m_Playlist ∧
      (SelectNext L e' t).m_UIState = t.m_UIState ∧
      (SelectPrevious L e' t).m_UIState = t.m_UIState ∧
      (0 ≤ t.m_PlaylistSelected ∧ t.m_PlaylistSelected ≤ (s.m_Playlist.length : Int) - 1 →
        (0 ≤ (SelectNext L e' t).m_PlaylistSelected ∧
          (SelectNext L e' t).m_PlaylistSelected ≤ (s.m_Playlist.length : Int) - 1) ∧
        (0 ≤ (SelectPrevious L e' t).m_PlaylistSelected ∧
          (SelectPrevious L e' t).m_PlaylistSelected ≤ (s.m_Playlist.length : Int) - 1)) := by
  have hlen : 1 ≤ (s.m_Playlist.length : Int) := by
    have : 0 < s.m_Playlist.length := List.length_pos.mpr hn
    omega
  have hsel : (ToggleWindow L e s).m_PlaylistSelected = s.m_PlaylistPosition := by
    simp [ToggleWindow, hs]
  refine ⟨by simp [ToggleWindow, hs], hsel, by simp [ToggleWindow, hs], ?_, ?_⟩
  · rw [hsel]; exact hp
  · intro e' t ht
    have hnext : (SelectNext L e' t).m_PlaylistSelected
        = min (t.m_PlaylistSelected + 1) ((s.m_Playlist.length : Int) - 1) := by
      simp [SelectNext, qMin_eq_min, ht]
    have hprev : (SelectPrevious L e' t).m_PlaylistSelected
        = max (t.m_PlaylistSelected - 1) 0 := by
      simp [SelectPrevious, qMax_eq_max, max_comm]
    refine ⟨hnext, hprev, by simp [SelectNext, ht], by simp [SelectPrevious, ht],
      by simp [SelectNext], by simp [SelectPrevious], ?_⟩
    intro hb
    rw [hnext, hprev]
    omega

set_option maxRecDepth 100000 in
/-- C9, on the scenario of the specification: three tracks, playingIndex = 1;
entering Playlist gives 1, Down gives 2, Down again leaves 2. -/
theorem C9_playlist_navigation_witness :
    playerFocused.m_Playlist.map TrackInfo.name = songs ∧
    playerFocused.m_PlaylistPosition = 1 ∧
    playerFocused.m_UIState = UISTATE_PLAYER ∧
    (ToggleWindow demoLib demoEnv playerFocused).m_PlaylistSelected = 1 ∧
    (SelectNext demoLib demoEnv
      (ToggleWindow demoLib demoEnv playerFocused)).m_PlaylistSelected = 2 ∧
    (SelectNext demoLib demoEnv (SelectNext demoLib demoEnv
      (ToggleWindow demoLib demoEnv playerFocused))).m_PlaylistSelected = 2 :=
  have h := C9_playlist_navigation demoLib demoEnv playerFocused (by decide) (by decide)
    (by decide)
  ⟨by decide, by decide, by decide, h.2.1.trans (by decide),
    ((h.2.2.2.2 demoEnv _ h.2.2.1).1).trans (by decide),
    ((h.2.2.2.2 demoEnv _ ((h.2.2.2.2 demoEnv _ h.2.2.1).2.2.1)).1).trans (by decide)⟩

/-! ## C10: Up and Down in the key handler -/

theorem DrawPlaylist_window (L : Lib) (s : UIView) :
    (DrawPlaylist L s).m_PlaylistWindow = s.m_PlaylistWindow := by
  unfold DrawPlaylist drawTrackList
  dsimp only
  split_ifs <;> rfl

theorem DrawPlaylist_current (L : Lib) (s : UIView) :
    ResultlistCurrent L (DrawPlaylist L s) := by
  intro hs hw
  rw [DrawPlaylist_window] at hw
  rw [(DrawPlaylist_frame L s).uiState] at hs
  rw [DrawPlaylist_resultlist L s hw hs, (DrawPlaylist_frame L s).searchString,
    (DrawPlaylist_frame L s).playlist]

theorem Refresh_current (L : Lib) (e : Env) (s : UIView) :
    ResultlistCurrent L (Refresh L e s) :=
  DrawPlaylist_current L _

theorem emit_current (L : Lib) (sig : Signal) (s : UIView) (h : ResultlistCurrent L s) :
    ResultlistCurrent L (emit sig s) := h

theorem mouseFocus_current (L : Lib) (e : Env) (x y : Int) (s : UIView)
    (h : ResultlistCurrent L s) : ResultlistCurrent L (mouseFocus L e x y s) := by
  unfold mouseFocus
  split_ifs <;> first | exact h | exact Refresh_current L e _

theorem mouseClick_current (L : Lib) (e : Env) (x y : Int) (s : UIView)
    (h : ResultlistCurrent L s) : ResultlistCurrent L (mouseClick L e x y s) := by
  unfold mouseClick
  split_ifs <;> first | exact h | exact Refresh_current L e _

theorem mouseDoubleClick_current (L : Lib) (e : Env) (x y : Int) (s : UIView)
    (h : ResultlistCurrent L s) : ResultlistCurrent L (mouseDoubleClick L e x y s) := by
  unfold mouseDoubleClick
  split_ifs
  · exact emit_current L _ _ (Refresh_current L e _)
  · exact h

theorem mouseScrollDown_current (L : Lib) (e : Env) (s : UIView)
    (h : ResultlistCurrent L s) : ResultlistCurrent L (mouseScrollDown L e s) := by
  unfold mouseScrollDown
  split_ifs <;> first | exact Refresh_current L e _ | exact emit_current L _ _ h

theorem mouseScrollUp_current (L : Lib) (e : Env) (s : UIView)
    (h : ResultlistCurrent L s) : ResultlistCurrent L (mouseScrollUp L e s) := by
  unfold mouseScrollUp
  split_ifs <;> first | exact Refresh_current L e _ | exact emit_current L _ _ h

theorem MouseEventRequest_current (L : Lib) (e : Env) (x y : Int) (b : Nat) (s : UIView)
    (h : ResultlistCurrent L s) : ResultlistCurrent L (MouseEventRequest L e x y b s) := by
  unfold MouseEventRequest
  dsimp only
  have h1 := mouseFocus_current L e x y s h
  have h2 : ResultlistCurrent L
      (if (b &&& BUTTON1_CLICKED) ≠ 0 then mouseClick L e x y (mouseFocus L e x y s)
        else mouseFocus L e x y s) := by
    split_ifs
    · exact mouseClick_current L e x y _ h1
    · exact h1
  generalize (if (b &&& BUTTON1_CLICKED) ≠ 0 then mouseClick L e x y (mouseFocus L e x y s)
        else mouseFocus L e x y s) = s2 at h2 ⊢
  have h3 : ResultlistCurrent L
      (if (b &&& BUTTON1_DOUBLE_CLICKED) ≠ 0 then mouseDoubleClick L e x y s2 else s2) := by
    split_ifs
    · exact mouseDoubleClick_current L e x y _ h2
    · exact h2
  generalize (if (b &&& BUTTON1_DOUBLE_CLICKED) ≠ 0 then mouseDoubleClick L e x y s2 else s2)
    = s3 at h3 ⊢
  have h4 : ResultlistCurrent L
      (if (b &&& 0x08000000) ≠ 0 then mouseScrollDown L e s3 else s3) := by
    split_ifs
    · exact mouseScrollDown_current L e _ h3
    · exact h3
  generalize (if (b &&& 0x08000000) ≠ 0 then mouseScrollDown L e s3 else s3) = s4 at h4 ⊢
  split_ifs
  · exact mouseScrollUp_current L e _ h4
  · exact h4

theorem step_current (L : Lib) (e : Env) (c : Call) (s : UIView)
    (h : ResultlistCurrent L s) : ResultlistCurrent L (step L e c s) := by
  cases c with
  | PlaySelected => exact emit_current L _ _ h
  | MouseEventRequest x y b => exact MouseEventRequest_current L e x y b s h
  | _ => exact Refresh_current L e _

/-- After every call the stored result list is current. -/
theorem run_current (L : Lib) (calls : List (Env × Call)) (s : UIView)
    (h : ResultlistCurrent L s) : ResultlistCurrent L (run L calls s) := by
  induction calls generalizing s with
  | nil => exact h
  | cons ec rest ih => exact ih _ (step_current L ec.1 ec.2 s h)

theorem KeyPress_up_down (L : Lib) (e : Env) (s : UIView) :
    (KeyPress L e KEY_UP s).m_PlaylistSelected
      = qBound 0 (s.m_PlaylistSelected - 1) (s.m_Resultlist.length - 1) ∧
    (KeyPress L e KEY_DOWN s).m_PlaylistSelected
      = qBound 0 (s.m_PlaylistSelected + 1) (s.m_Resultlist.length - 1) := by
  have hu : (ispunct KEY_UP || isalnum KEY_UP || KEY_UP == 32) = false := by decide
  have hd : (ispunct KEY_DOWN || isalnum KEY_DOWN || KEY_DOWN == 32) = false := by decide
  have hu1 : ¬ (KEY_UP = 10) := by decide
  have hu2 : ¬ (KEY_UP = KEY_LEFT) := by decide
  have hu3 : ¬ (KEY_UP = KEY_RIGHT) := by decide
  have hd1 : ¬ (KEY_DOWN = 10) := by decide
  have hd2 : ¬ (KEY_DOWN = KEY_LEFT) := by decide
  have hd3 : ¬ (KEY_DOWN = KEY_RIGHT) := by decide
  have hd4 : ¬ (KEY_DOWN = KEY_UP) := by decide
  unfold KeyPress
  simp only [hu, hd, hu1, hu2, hu3, hd1, hd2, hd3, hd4, Bool.false_eq_true, if_false, if_true,
    Refresh_playlistSelected, and_self]

/-- C10 (fails as stated): with three tracks in the catalog, UIState = Playlist and
selectedIndex = 1, KEY_DOWN sets selectedIndex to 0, not to 2: the key clamps
against the stored result list, which is empty, and not against the catalog. -/
theorem C10_key_down_in_playlist :
    playlistFocused.m_UIState = UISTATE_PLAYLIST ∧
    (visibleList playlistFocused).length = 3 ∧
    playlistFocused.m_PlaylistSelected = 1 ∧
    (KeyPress demoLib demoEnv KEY_DOWN playlistFocused).m_PlaylistSelected = 0 ∧
    (KeyPress demoLib demoEnv KEY_DOWN playlistFocused).m_PlaylistSelected
      ≠ clamp (playlistFocused.m_PlaylistSelected + 1) 0
          ((visibleList playlistFocused).length - 1) := by
  decide

/-- C10, amended: in every state reached from the constructed view by public calls,
with UIState = Search and the playlist pane present, the visible list is the
result list for the current query, and KEY_UP / KEY_DOWN set selectedIndex to
selectedIndex - 1 / + 1 clamped to `[0, size - 1]` of that list (to 0 when it is
empty). -/
theorem C10_keys_in_search (L : Lib) (e0 e : Env) (calls : List (Env × Call)) (s : UIView)
    (hr : s = run L calls (UIView.new L e0))
    (hs : s.m_UIState = UISTATE_SEARCH)
    (hw : s.m_PlaylistWindow = true) :
    visibleList s = refreshResultlist L.foldCase s.m_SearchString s.m_Playlist ∧
    (KeyPress L e KEY_UP s).m_PlaylistSelected
      = clamp (s.m_PlaylistSelected - 1) 0 ((visibleList s).length - 1) ∧
    (KeyPress L e KEY_DOWN s).m_PlaylistSelected
      = clamp (s.m_PlaylistSelected + 1) 0 ((visibleList s).length - 1) := by
  have hcur : ResultlistCurrent L s := by
    rw [hr]
    exact run_current L calls _ (Refresh_current L e0 _)
  have hvis : visibleList s = s.m_Resultlist := by simp [visibleList, hs]
  refine ⟨by rw [hvis]; exact hcur hs hw, ?_, ?_⟩
  · rw [(KeyPress_up_down L e s).1, qBound_eq_clamp, hvis]
  · rw [(KeyPress_up_down L e s).2, qBound_eq_clamp, hvis]

set_option maxRecDepth 100000 in
/-- C10, amended, on the scenario: `song b` typed, one result, Down stays on it. -/
theorem C10_keys_in_search_witness :
    searchedSongB.m_UIState = UISTATE_SEARCH ∧
    searchedSongB.m_PlaylistWindow = true ∧
    (visibleList searchedSongB).length = 1 ∧
    (KeyPress demoLib demoEnv KEY_DOWN searchedSongB).m_PlaylistSelected = 0 :=
  have h := C10_keys_in_search demoLib demoEnv demoEnv _ searchedSongB rfl (by decide)
    (by decide)
  ⟨by decide, by decide, by decide, h.2.2.trans (by decide)⟩

/-! ## C5: a result maps back to its catalog position -/

theorem KeyPress_playlist (L : Lib) (e : Env) (k : Int) (s : UIView) :
    (KeyPress L e k s).m_Playlist = s.m_Playlist := by
  by_cases h10 : k = 10
  · subst h10
    have hp : ispunct 10 = false := by decide
    have ha : isalnum 10 = false := by decide
    by_cases h1 : s.m_PlaylistSelected < s.m_Resultlist.length
    · cases hq : QVector_at s.m_Resultlist s.m_PlaylistSelected with
      | none => simp [KeyPress, hp, ha, h1, hq]
      | some t => simp [KeyPress, hp, ha, h1, hq, emit]
    · simp [KeyPress, hp, ha, h1]
  · unfold KeyPress
    simp only [Refresh_playlist, h10, if_false]
    split_ifs <;> first | rfl | exact SetUIState_playlist _ _

theorem ToggleWindow_playlist (L : Lib) (e : Env) (s : UIView) :
    (ToggleWindow L e s).m_Playlist = s.m_Playlist := by
  unfold ToggleWindow
  cases h : s.m_UIState <;> simp

theorem mouseFocus_playlist (L : Lib) (e : Env) (x y : Int) (s : UIView) :
    (mouseFocus L e x y s).m_Playlist = s.m_Playlist := by
  unfold mouseFocus
  split_ifs <;> simp

theorem mouseClick_playlist (L : Lib) (e : Env) (x y : Int) (s : UIView) :
    (mouseClick L e x y s).m_Playlist = s.m_Playlist := by
  unfold mouseClick emit
  split_ifs <;> simp

theorem mouseDoubleClick_playlist (L : Lib) (e : Env) (x y : Int) (s : UIView) :
    (mouseDoubleClick L e x y s).m_Playlist = s.m_Playlist := by
  unfold mouseDoubleClick emit
  split_ifs <;> simp

theorem mouseScrollDown_playlist (L : Lib) (e : Env) (s : UIView) :
    (mouseScrollDown L e s).m_Playlist = s.m_Playlist := by
  unfold mouseScrollDown emit
  split_ifs <;> simp

theorem mouseScrollUp_playlist (L : Lib) (e : Env) (s : UIView) :
    (mouseScrollUp L e s).m_Playlist = s.m_Playlist := by
  unfold mouseScrollUp emit
  split_ifs <;> simp

theorem MouseEventRequest_playlist (L : Lib) (e : Env) (x y : Int) (b : Nat) (s : UIView) :
    (MouseEventRequest L e x y b s).m_Playlist = s.m_Playlist := by
  unfold MouseEventRequest
  dsimp only
  split_ifs <;>
    simp only [mouseScrollUp_playlist, mouseScrollDown_playlist, mouseDoubleClick_playlist,
      mouseClick_playlist, mouseFocus_playlist]

/-- Every call leaves a catalog that `PlaylistUpdated` built: only `PlaylistUpdated`
assigns the catalog. -/
theorem step_catalogBuilt (L : Lib) (e : Env) (c : Call) (s : UIView)
    (h : CatalogBuilt L s) : CatalogBuilt L (step L e c s) := by
  obtain ⟨paths, hp⟩ := h
  cases c with
  | PlaylistUpdated p => exact ⟨p, by simp [step, PlaylistUpdated]⟩
  | KeyPress k => exact ⟨paths, by simp only [step]; rw [KeyPress_playlist, hp]⟩
  | MouseEventRequest x y b =>
    exact ⟨paths, by simp only [step]; rw [MouseEventRequest_playlist, hp]⟩
  | ToggleWindow => exact ⟨paths, by simp only [step]; rw [ToggleWindow_playlist, hp]⟩
  | Search => exact ⟨paths, by simp [step, Search, hp]⟩
  | PlaySelected => exact ⟨paths, hp⟩
  | PositionChanged p => exact ⟨paths, by simp [step, PositionChanged, hp]⟩
  | DurationChanged p => exact ⟨paths, by simp [step, DurationChanged, hp]⟩
  | CurrentIndexChanged p => exact ⟨paths, by simp [step, CurrentIndexChanged, hp]⟩
  | VolumeChanged p => exact ⟨paths, by simp [step, VolumeChanged, hp]⟩
  | PlaybackModeUpdated p => exact ⟨paths, by simp [step, PlaybackModeUpdated, hp]⟩
  | SelectPrevious => exact ⟨paths, by simp [step, SelectPrevious, hp]⟩
  | SelectNext => exact ⟨paths, by simp [step, SelectNext, hp]⟩
  | PagePrevious => exact ⟨paths, by simp [step, PagePrevious, hp]⟩
  | PageNext => exact ⟨paths, by simp [step, PageNext, hp]⟩

theorem run_catalogBuilt (L : Lib) (calls : List (Env × Call)) (s : UIView)
    (h : CatalogBuilt L s) : CatalogBuilt L (run L calls s) := by
  induction calls generalizing s with
  | nil => exact h
  | cons ec rest ih => exact ih _ (step_catalogBuilt L ec.1 ec.2 s h)

theorem new_catalogBuilt (L : Lib) (e : Env) : CatalogBuilt L (UIView.new L e) :=
  ⟨[], by simp [UIView.new, members, buildPlaylist]⟩

theorem KeyPress_enter_fields (L : Lib) (e : Env) (s : UIView) :
    (KeyPress L e 10 s).m_SearchString
      = (if s.m_PreviousUIState = UISTATE_SEARCH then [] else s.m_SearchString) ∧
    (KeyPress L e 10 s).m_SearchStringPos
      = (if s.m_PreviousUIState = UISTATE_SEARCH then 0 else s.m_SearchStringPos) ∧
    (KeyPress L e 10 s).m_PlaylistSelected
      = (if s.m_PreviousUIState = UISTATE_SEARCH then 0 else s.m_PlaylistPosition) := by
  have hp : ispunct 10 = false := by decide
  have ha : isalnum 10 = false := by decide
  by_cases h1 : s.m_PlaylistSelected < s.m_Resultlist.length
  · cases hq : QVector_at s.m_Resultlist s.m_PlaylistSelected with
    | none => simp [KeyPress, hp, ha, h1, hq]
    | some t => simp [KeyPress, hp, ha, h1, hq, emit]
  · simp [KeyPress, hp, ha, h1]

set_option maxRecDepth 100000 in
/-- C11 (fails as stated): after a cancelled search the player pane is focused, and
Enter there emits `SetCurrentIndex(0)` and a state notification and switches
UIState to Search. -/
theorem C11_enter_in_player :
    searchCancelled.m_UIState = UISTATE_PLAYER ∧
    (KeyPress demoLib demoEnv 10 searchCancelled).signals
      = searchCancelled.signals ++ [Signal.SetCurrentIndex 0,
          Signal.UIStateUpdated UISTATE_SEARCH] ∧
    (KeyPress demoLib demoEnv 10 searchCancelled).m_UIState = UISTATE_SEARCH ∧
    (KeyPress demoLib demoEnv 10 searchCancelled).m_PreviousUIState = UISTATE_PLAYER := by
  decide

/-- C11, amended: `KeyPress` does not look at UIState. With UIState Player or Playlist,
Enter calls `SetUIState(previousState)`: UIState becomes the old previousState,
previousState the old UIState, and one state notification is emitted, preceded
by `SetCurrentIndex(resultList[selectedIndex].index)` exactly when
`0 ≤ selectedIndex` is below the size of the stored result list; when the old
previousState is not Search, the query and the cursor are unchanged and
selectedIndex becomes playingIndex. -/
theorem C11_enter_outside_search (L : Lib) (e : Env) (s : UIView)
    (hs : s.m_UIState = UISTATE_PLAYER ∨ s.m_UIState = UISTATE_PLAYLIST) :
    (KeyPress L e 10 s).m_UIState = s.m_PreviousUIState ∧
    (KeyPress L e 10 s).m_PreviousUIState = s.m_UIState ∧
    (KeyPress L e 10 s).m_PreviousUIState ≠ UISTATE_SEARCH ∧
    ((s.m_Resultlist.length : Int) ≤ s.m_PlaylistSelected →
      (KeyPress L e 10 s).signals
        = s.signals ++ [Signal.UIStateUpdated s.m_PreviousUIState]) ∧
    (0 ≤ s.m_PlaylistSelected ∧ s.m_PlaylistSelected < s.m_Resultlist.length →
      ∃ r, QVector_at s.m_Resultlist s.m_PlaylistSelected = some r ∧
        (KeyPress L e 10 s).signals
          = s.signals ++ [Signal.SetCurrentIndex r.index,
              Signal.UIStateUpdated s.m_PreviousUIState]) ∧
    (s.m_PreviousUIState ≠ UISTATE_SEARCH →
      (KeyPress L e 10 s).m_SearchString = s.m_SearchString ∧
      (KeyPress L e 10 s).m_SearchStringPos = s.m_SearchStringPos ∧
      (KeyPress L e 10 s).m_PlaylistSelected = s.m_PlaylistPosition) := by
  have hm := KeyPress_enter_mode L e s
  have hf := KeyPress_enter_fields L e s
  refine ⟨hm.1, hm.2, ?_, ?_, ?_, ?_⟩
  · rw [hm.2]
    rcases hs with h | h <;> rw [h] <;> decide
  · intro h
    rw [KeyPress_enter_signals, if_neg (by omega)]
  · rintro ⟨h0, h1⟩
    have hlt : s.m_PlaylistSelected.toNat < s.m_Resultlist.length := by omega
    have hget : QVector_at s.m_Resultlist s.m_PlaylistSelected
        = some s.m_Resultlist[s.m_PlaylistSelected.toNat] := by
      unfold QVector_at
      simp [h0, h1, List.getElem?_eq_getElem hlt]
    refine ⟨_, hget, ?_⟩
    rw [KeyPress_enter_signals, if_pos h1, hget]
    simp
  · intro hp
    rw [hf.1, hf.2.1, hf.2.2]
    simp [hp]

set_option maxRecDepth 100000 in
/-- C11, amended, on the scenario: Enter with the playlist pane focused returns to the
player pane and emits the state notification only. -/
theorem C11_enter_outside_search_witness :
    (playlistFocused.m_UIState = UISTATE_PLAYER ∨
      playlistFocused.m_UIState = UISTATE_PLAYLIST) ∧
    (KeyPress demoLib demoEnv 10 playlistFocused).m_UIState = UISTATE_PLAYER ∧
    (KeyPress demoLib demoEnv 10 playlistFocused).m_PreviousUIState = UISTATE_PLAYLIST ∧
    (KeyPress demoLib demoEnv 10 playlistFocused).signals
      = playlistFocused.signals ++ [Signal.UIStateUpdated UISTATE_PLAYER] :=
  have h := C11_enter_outside_search demoLib demoEnv playlistFocused (by decide)
  ⟨by decide, h.1.trans (by decide), h.2.1.trans (by decide),
    (h.2.2.2.1 (by decide)).trans (by decide)⟩

/-! ## C12: the marquee -/

set_option maxRecDepth 1000000 in
/-- C12 (fails on the code): a text of 29 characters in a width of 27 (maximum offset
2), a track change at clock 0 and renders at the given clocks. Offset 0 is held
until more than 3900 ms have passed and offset 1 for the 900 ms step, but the
maximum offset 2 is left after 901 ms: the render at 5703 already shows offset 3,
one past the maximum, where the text is 26 characters long, and it is this
offset that is held for 3900 ms before the wrap to 0. -/
theorem C12_hold_is_past_the_maximum :
    fullTrackName (marqueeRun []) = some "A Very Long Track Name (0:00)".toList ∧
    (marqueeRun []).trackScrollOffset = 0 ∧
    (marqueeRun [3900]).trackScrollOffset = 0 ∧
    (marqueeRun [3901]).trackScrollOffset = 1 ∧
    (marqueeRun [3901, 4802]).trackScrollOffset = 2 ∧
    (marqueeRun [3901, 4802, 5703]).trackScrollOffset = 3 ∧
    (GetPlayerTrackName 5704 27 (marqueeRun [3901, 4802, 5703])).map Prod.fst
      = some "ery Long Track Name (0:00)".toList ∧
    (marqueeRun [3901, 4802, 5703, 9603]).trackScrollOffset = 3 ∧
    (marqueeRun [3901, 4802, 5703, 9604]).trackScrollOffset = 0 := by
  decide

/-! ## C13: texts that fit -/

theorem QString_mid_length_le (str : QString) (position n : Int) (hn : 0 ≤ n) :
    ((QString_mid str position n).length : Int) ≤ n := by
  unfold QString_mid
  dsimp only
  split_ifs <;> (try simp only [List.length_nil, List.length_take, List.length_drop]) <;> omega

theorem fullTrackName_eq (s : UIView) :
    (∀ t, QVector_at s.m_Playlist s.m_PlaylistPosition = some t →
      fullTrackName s
        = some (t.name ++ " ".toList ++ positionText s.m_TrackDurationSec)) ∧
    ((s.m_Playlist.length : Int) ≤ s.m_PlaylistPosition → fullTrackName s = some []) := by
  constructor
  · intro t ht
    have hlt : s.m_PlaylistPosition < s.m_Playlist.length := by
      unfold QVector_at at ht
      split at ht
      · omega
      · cases ht
    simp [fullTrackName, hlt, ht]
  · intro h
    simp [fullTrackName, not_lt.mpr h]

/-- C13: let `text` be the track text `GetPlayerTrackName` builds (the name, a blank and
the `(M:SS)` suffix, or the empty text when the playing index is not below the
catalog size). The call returns a string; when `text` is at most `p_MaxLength`
long it returns `text` itself and leaves the scroller's statics as they are,
whatever they hold; and for a width `p_MaxLength ≥ 0` the returned string is at
most `p_MaxLength` long. -/
theorem C13_track_name_fits (now p_MaxLength : Int) (s : UIView) (text : QString)
    (ht : fullTrackName s = some text) :
    ∃ out s', GetPlayerTrackName now p_MaxLength s = some (out, s') ∧
      ((text.length : Int) ≤ p_MaxLength → out = text ∧ s' = s) ∧
      (0 ≤ p_MaxLength → (out.length : Int) ≤ p_MaxLength) := by
  unfold GetPlayerTrackName
  rw [ht]
  dsimp only
  by_cases h : (text.length : Int) > p_MaxLength
  · rw [if_pos h]
    refine ⟨_, _, rfl, ?_, ?_⟩
    · intro h'; omega
    · intro h0; exact QString_mid_length_le _ _ _ h0
  · rw [if_neg h]
    refine ⟨_, _, rfl, ?_, ?_⟩
    · intro _; exact ⟨rfl, rfl⟩
    · intro _; omega

set_option maxRecDepth 100000 in
/-- C13, on the scenario: the second of the three tracks is playing; its text
`Song B (0:00)` fits the 27 columns and is returned unchanged. -/
theorem C13_track_name_fits_witness :
    fullTrackName playerFocused = some "Song B (0:00)".toList ∧
    (GetPlayerTrackName 0 27 playerFocused).map Prod.fst = some "Song B (0:00)".toList := by
  have ht : fullTrackName playerFocused = some "Song B (0:00)".toList := by decide
  obtain ⟨out, s', h, h1, _⟩ := C13_track_name_fits 0 27 playerFocused _ ht
  have ho : out = "Song B (0:00)".toList := (h1 (by decide)).1
  refine ⟨ht, ?_⟩
  rw [h, ho]
  rfl

/-! ## C14: the query and its cursor -/

theorem QString_insert_length (str : QString) (i : Int) (c : Char)
    (h0 : 0 ≤ i) (h1 : i ≤ str.length) :
    (QString_insert str i c).length = str.length + 1 := by
  unfold QString_insert
  have hn : i.toNat ≤ str.length := by omega
  simp only [not_lt.mpr h0, if_false, hn, if_true, List.length_append, List.length_take,
    List.length_cons, List.length_drop]
  omega

theorem QString_remove1_length (str : QString) (pos : Int)
    (h0 : 0 ≤ pos) (h1 : pos < str.length) :
    ((QString_remove1 str pos).length : Int) = str.length - 1 := by
  unfold QString_remove1
  simp only [not_lt.mpr h0, if_false, h0, h1, and_self, if_true, List.length_append,
    List.length_take, List.length_drop]
  omega

theorem KeyPress_escape_fields (L : Lib) (e : Env) (s : UIView) :
    (KeyPress L e 27 s).m_SearchString
      = (if s.m_PreviousUIState = UISTATE_SEARCH then [] else s.m_SearchString) ∧
    (KeyPress L e 27 s).m_SearchStringPos
      = (if s.m_PreviousUIState = UISTATE_SEARCH then 0 else s.m_SearchStringPos) := by
  have hp : ispunct 27 = false := by decide
  have ha : isalnum 27 = false := by decide
  simp [KeyPress, hp, ha, KEY_LEFT, KEY_RIGHT, KEY_UP, KEY_DOWN, KEY_BACKSPACE]

theorem KeyPress_queryInv (L : Lib) (e : Env) (k : Int) (s : UIView) (h : QueryInv s) :
    QueryInv (KeyPress L e k s) := by
  obtain ⟨h0, h1, h2⟩ := h
  by_cases h10 : k = 10
  · subst h10
    have hf := KeyPress_enter_fields L e s
    unfold QueryInv
    rw [hf.1, hf.2.1]
    split_ifs
    · simp
    · exact ⟨h0, h1, h2⟩
  · by_cases h27 : k = 27
    · subst h27
      have hf := KeyPress_escape_fields L e s
      unfold QueryInv
      rw [hf.1, hf.2]
      split_ifs
      · simp
      · exact ⟨h0, h1, h2⟩
    · unfold QueryInv KeyPress
      simp only [Refresh_searchString, Refresh_searchStringPos, h10, h27, if_false]
      split_ifs with c1 c2 c3 c4 c5 c6 c7 c8
      · have hl := QString_insert_length s.m_SearchString s.m_SearchStringPos (QChar k) h0 h1
        dsimp only
        rw [hl]
        push_cast
        omega
      · exact ⟨h0, h1, h2⟩
      · dsimp only
        rw [qBound_eq_clamp]
        unfold clamp
        omega
      · dsimp only
        rw [qBound_eq_clamp]
        unfold clamp
        omega
      · exact ⟨h0, h1, h2⟩
      · exact ⟨h0, h1, h2⟩
      · have hl := QString_remove1_length s.m_SearchString (s.m_SearchStringPos - 1)
          (by omega) (by omega)
        dsimp only
        rw [hl]
        omega
      · exact ⟨h0, h1, h2⟩
      · exact ⟨h0, h1, h2⟩

theorem mouseFocus_query (L : Lib) (e : Env) (x y : Int) (s : UIView) :
    (mouseFocus L e x y s).m_SearchString = s.m_SearchString ∧
    (mouseFocus L e x y s).m_SearchStringPos = s.m_SearchStringPos := by
  unfold mouseFocus
  split_ifs <;> simp

theorem mouseClick_query (L : Lib) (e : Env) (x y : Int) (s : UIView) :
    (mouseClick L e x y s).m_SearchString = s.m_SearchString ∧
    (mouseClick L e x y s).m_SearchStringPos = s.m_SearchStringPos := by
  unfold mouseClick emit
  split_ifs <;> simp

theorem mouseDoubleClick_query (L : Lib) (e : Env) (x y : Int) (s : UIView) :
    (mouseDoubleClick L e x y s).m_SearchString = s.m_SearchString ∧
    (mouseDoubleClick L e x y s).m_SearchStringPos = s.m_SearchStringPos := by
  unfold mouseDoubleClick emit
  split_ifs <;> simp

theorem mouseScrollDown_query (L : Lib) (e : Env) (s : UIView) :
    (mouseScrollDown L e s).m_SearchString = s.m_SearchString ∧
    (mouseScrollDown L e s).m_SearchStringPos = s.m_SearchStringPos := by
  unfold mouseScrollDown emit
  split_ifs <;> simp

theorem mouseScrollUp_query (L : Lib) (e : Env) (s : UIView) :
    (mouseScrollUp L e s).m_SearchString = s.m_SearchString ∧
    (mouseScrollUp L e s).m_SearchStringPos = s.m_SearchStringPos := by
  unfold mouseScrollUp emit
  split_ifs <;> simp

theorem MouseEventRequest_query (L : Lib) (e : Env) (x y : Int) (b : Nat) (s : UIView) :
    (MouseEventRequest L e x y b s).m_SearchString = s.m_SearchString ∧
    (MouseEventRequest L e x y b s).m_SearchStringPos = s.m_SearchStringPos := by
  unfold MouseEventRequest
  dsimp only
  split_ifs <;>
    simp only [(mouseScrollUp_query L e _).1, (mouseScrollUp_query L e _).2,
      (mouseScrollDown_query L e _).1, (mouseScrollDown_query L e _).2,
      (mouseDoubleClick_query L e x y _).1, (mouseDoubleClick_query L e x y _).2,
      (mouseClick_query L e x y _).1, (mouseClick_query L e x y _).2,
      (mouseFocus_query L e x y _).1, (mouseFocus_query L e x y _).2, and_self]

theorem step_queryInv (L : Lib) (e : Env) (c : Call) (s : UIView) (h : QueryInv s) :
    QueryInv (step L e c s) := by
  cases c with
  | KeyPress k => exact KeyPress_queryInv L e k s h
  | MouseEventRequest x y b =>
    unfold QueryInv
    simp only [step]
    rw [(MouseEventRequest_query L e x y b s).1, (MouseEventRequest_query L e x y b s).2]
    exact h
  | Search => simp [step, Search, QueryInv]
  | ToggleWindow =>
    unfold QueryInv at h ⊢
    simp only [step, ToggleWindow]
    cases hs : s.m_UIState <;> simpa using h
  | PlaySelected => exact h
  | PlaylistUpdated p => simpa [step, PlaylistUpdated, QueryInv] using h
  | PositionChanged p => simpa [step, PositionChanged, QueryInv] using h
  | DurationChanged p => simpa [step, DurationChanged, QueryInv] using h
  | CurrentIndexChanged p => simpa [step, CurrentIndexChanged, QueryInv] using h
  | VolumeChanged p => simpa [step, VolumeChanged, QueryInv] using h
  | PlaybackModeUpdated p => simpa [step, PlaybackModeUpdated, QueryInv] using h
  | SelectPrevious => simpa [step, SelectPrevious, QueryInv] using h
  | SelectNext => simpa [step, SelectNext, QueryInv] using h
  | PagePrevious => simpa [step, PagePrevious, QueryInv] using h
  | PageNext => simpa [step, PageNext, QueryInv] using h

theorem run_queryInv (L : Lib) (calls : List (Env × Call)) (s : UIView) (h : QueryInv s) :
    QueryInv (run L calls s) := by
  induction calls generalizing s with
  | nil => exact h
  | cons ec rest ih => exact ih _ (step_queryInv L ec.1 ec.2 s h)

theorem new_queryInv (L : Lib) (e : Env) : QueryInv (UIView.new L e) := by
  simp [UIView.new, QueryInv, members]

theorem KeyPress_left_right (L : Lib) (e : Env) (s : UIView) :
    ((KeyPress L e KEY_LEFT s).m_SearchStringPos
        = qBound 0 (s.m_SearchStringPos - 1) s.m_SearchString.length ∧
      (KeyPress L e KEY_LEFT s).m_SearchString = s.m_SearchString) ∧
    ((KeyPress L e KEY_RIGHT s).m_SearchStringPos
        = qBound 0 (s.m_SearchStringPos + 1) s.m_SearchString.length ∧
      (KeyPress L e KEY_RIGHT s).m_SearchString = s.m_SearchString) := by
  have hl : (ispunct KEY_LEFT || isalnum KEY_LEFT || KEY_LEFT == 32) = false := by decide
  have hr : (ispunct KEY_RIGHT || isalnum KEY_RIGHT || KEY_RIGHT == 32) = false := by decide
  have hl1 : ¬ (KEY_LEFT = 10) := by decide
  have hr1 : ¬ (KEY_RIGHT = 10) := by decide
  have hr2 : ¬ (KEY_RIGHT = KEY_LEFT) := by decide
  unfold KeyPress
  simp only [hl, hr, hl1, hr1, hr2, Bool.false_eq_true, if_false, if_true,
    Refresh_searchString, Refresh_searchStringPos, and_self]

theorem KeyPress_dropped (L : Lib) (e : Env) (k : Int) (s : UIView)
    (hk : (ispunct k || isalnum k || k == 32) = true)
    (hlen : (s.m_SearchString.length : Int) = 26) :
    (KeyPress L e k s).m_SearchString = s.m_SearchString ∧
    (KeyPress L e k s).m_SearchStringPos = s.m_SearchStringPos ∧
    (KeyPress L e k s).m_PlaylistSelected = s.m_PlaylistSelected ∧
    (KeyPress L e k s).m_UIState = s.m_UIState ∧
    (KeyPress L e k s).m_PreviousUIState = s.m_PreviousUIState ∧
    (KeyPress L e k s).signals = s.signals := by
  have hn : ¬ ((s.m_SearchString.length : Int) < 26) := by omega
  unfold KeyPress
  simp only [hk, if_true, hn, if_false, Refresh_searchString, Refresh_searchStringPos,
    Refresh_playlistSelected, Refresh_uiState, Refresh_previousUIState, Refresh_signals,
    and_self]

/-- C14: in every state reached from the constructed view by public calls,
`0 ≤ queryCursor ≤ length(query) ≤ 26`; Left and Right move the cursor by one,
clamped to `[0, length(query)]`, and keep the query; and when the query is 26 long
a printable key is dropped: the query, the cursor, selectedIndex and UIState are
unchanged. -/
theorem C14_query_cursor (L : Lib) (e0 e : Env) (calls : List (Env × Call)) (s : UIView)
    (hr : s = run L calls (UIView.new L e0)) :
    (0 ≤ s.m_SearchStringPos ∧ s.m_SearchStringPos ≤ s.m_SearchString.length ∧
      (s.m_SearchString.length : Int) ≤ 26) ∧
    ((KeyPress L e KEY_LEFT s).m_SearchStringPos
        = clamp (s.m_SearchStringPos - 1) 0 s.m_SearchString.length ∧
      (KeyPress L e KEY_LEFT s).m_SearchString = s.m_SearchString) ∧
    ((KeyPress L e KEY_RIGHT s).m_SearchStringPos
        = clamp (s.m_SearchStringPos + 1) 0 s.m_SearchString.length ∧
      (KeyPress L e KEY_RIGHT s).m_SearchString = s.m_SearchString) ∧
    ((s.m_SearchString.length : Int) = 26 →
      ∀ k : Int, (ispunct k || isalnum k || k == 32) = true →
        (KeyPress L e k s).m_SearchString = s.m_SearchString ∧
        (KeyPress L e k s).m_SearchStringPos = s.m_SearchStringPos ∧
        (KeyPress L e k s).m_PlaylistSelected = s.m_PlaylistSelected ∧
        (KeyPress L e k s).m_UIState = s.m_UIState) := by
  have hinv : QueryInv s := by
    rw [hr]
    exact run_queryInv L calls _ (new_queryInv L e0)
  have hlr := KeyPress_left_right L e s
  simp only [qBound_eq_clamp] at hlr
  refine ⟨hinv, hlr.1, hlr.2, ?_⟩
  intro hlen k hk
  have hd := KeyPress_dropped L e k s hk hlen
  exact ⟨hd.1, hd.2.1, hd.2.2.1, hd.2.2.2.1⟩

set_option maxRecDepth 1000000 in
/-- C14, on a run: search entered and `a` typed 26 times; a further `a` is dropped,
Right stays at 26, Left moves to 25. -/
theorem C14_query_cursor_witness :
    (fullQuery.m_SearchString.length : Int) = 26 ∧
    fullQuery.m_SearchStringPos = 26 ∧
    (KeyPress demoLib demoEnv 97 fullQuery).m_SearchString = fullQuery.m_SearchString ∧
    (KeyPress demoLib demoEnv 97 fullQuery).m_SearchStringPos = 26 ∧
    (KeyPress demoLib demoEnv KEY_RIGHT fullQuery).m_SearchStringPos = 26 ∧
    (KeyPress demoLib demoEnv KEY_LEFT fullQuery).m_SearchStringPos = 25 :=
  have h := C14_query_cursor demoLib demoEnv demoEnv _ fullQuery rfl
  have hd := h.2.2.2 (by decide) 97 (by decide)
  ⟨by decide, by decide, hd.1, hd.2.1.trans (by decide), h.2.2.1.1.trans (by decide),
    h.2.1.1.trans (by decide)⟩

/-! ## C15: focus follows the click -/

set_option maxRecDepth 100000 in
/-- C15 (fails on the code): on the terminal of 80 by 24 the playlist pane is stacked at
lines 6 to 23. With UIState = Player, a mouse event at column 5 of line 6, the
top line of the playlist pane and outside the player pane, leaves
UIState = Player. -/
theorem C15_top_row_of_playlist_pane :
    playerFocused.m_PlaylistWindow = true ∧
    playerFocused.m_UIState = UISTATE_PLAYER ∧
    (playerFocused.m_PlaylistWindowX, playerFocused.m_PlaylistWindowY,
      playerFocused.m_PlaylistWindowHeight) = (0, 6, 18) ∧
    inRect playerFocused.m_PlaylistWindowX playerFocused.m_PlaylistWindowY
      m_PlaylistWindowWidth playerFocused.m_PlaylistWindowHeight 5 6 ∧
    ¬ inRect m_PlayerWindowX m_PlayerWindowY m_PlayerWindowWidth m_PlayerWindowHeight 5 6 ∧
    (MouseEventRequest demoLib demoEnv 5 6 BUTTON1_CLICKED playerFocused).m_UIState
      = UISTATE_PLAYER := by
  decide

/-! ## C16: the sliders -/

theorem mouseFocus_signals_in_player (L : Lib) (e : Env) (x y : Int) (s : UIView)
    (hy : 0 ≤ y ∧ y ≤ 6) (hx : 0 ≤ x ∧ x ≤ 40) :
    (mouseFocus L e x y s).signals
      = s.signals ++ (if s.m_UIState = UISTATE_PLAYLIST
          then [Signal.UIStateUpdated UISTATE_PLAYER] else []) := by
  have h : y ≥ m_PlayerWindowY ∧ y ≤ m_PlayerWindowY + m_PlayerWindowHeight ∧
      x ≥ m_PlayerWindowX ∧ x ≤ m_PlayerWindowX + m_PlayerWindowWidth := by
    simp only [m_PlayerWindowY, m_PlayerWindowHeight, m_PlayerWindowX, m_PlayerWindowWidth]
    omega
  unfold mouseFocus
  rw [if_pos h]
  split_ifs <;> simp

theorem mouseClick_volume (L : Lib) (e : Env) (x : Int) (s : UIView)
    (h0 : 11 ≤ x) (h1 : x ≤ 31) :
    mouseClick L e x 2 s
      = emit (Signal.ProcessMouseEvent UIElement.UIELEM_VOLUME (volumeAt x)) s := by
  have hd : Int.tdiv (100 * (x - 11)) 20 = volumeAt x :=
    Int.tdiv_eq_ediv (by omega) (by omega)
  unfold mouseClick
  rw [if_pos ⟨rfl, h0, h1⟩, hd]

theorem mouseClick_position (L : Lib) (e : Env) (x : Int) (s : UIView)
    (h0 : 2 ≤ x) (h1 : x ≤ 37) :
    mouseClick L e x 3 s
      = emit (Signal.ProcessMouseEvent UIElement.UIELEM_POSITION (positionAt x)) s := by
  have hd : Int.tdiv (100 * (x - 2)) 35 = positionAt x :=
    Int.tdiv_eq_ediv (by omega) (by omega)
  have hn : ¬ ((3 : Int) = 2 ∧ x ≥ 11 ∧ x ≤ 31) := by omega
  unfold mouseClick
  rw [if_neg hn, if_pos ⟨rfl, h0, h1⟩, hd]

theorem MouseEventRequest_primary (L : Lib) (e : Env) (x y : Int) (s : UIView) :
    MouseEventRequest L e x y BUTTON1_CLICKED s = mouseClick L e x y (mouseFocus L e x y s) := by
  have h1 : (BUTTON1_CLICKED &&& BUTTON1_CLICKED) ≠ 0 := by decide
  have h2 : ¬ (BUTTON1_CLICKED &&& BUTTON1_DOUBLE_CLICKED) ≠ 0 := by decide
  have h3 : ¬ (BUTTON1_CLICKED &&& 0x08000000) ≠ 0 := by decide
  have h4 : ¬ (BUTTON1_CLICKED &&& 0x00080000) ≠ 0 := by decide
  unfold MouseEventRequest
  simp only [if_pos h1, if_neg h2, if_neg h3, if_neg h4]

/-- C16: a primary click on the volume slider (`y = 2`, `11 ≤ x ≤ 31`) emits the volume
control with magnitude `100 * (x - 11) / 20`, and one on the position slider
(`y = 3`, `2 ≤ x ≤ 37`) the seek control with magnitude `100 * (x - 2) / 35`, in
both cases after the state notification of the focus change when the playlist
pane was focused; both magnitudes lie in `[0, 100]`, do not decrease with `x`,
and are 0 and 100 at the two ends of the slider. -/
theorem C16_slider_magnitudes (L : Lib) (e : Env) (s : UIView) :
    (∀ x : Int, 11 ≤ x → x ≤ 31 →
      (MouseEventRequest L e x 2 BUTTON1_CLICKED s).signals
        = s.signals ++ (if s.m_UIState = UISTATE_PLAYLIST
            then [Signal.UIStateUpdated UISTATE_PLAYER] else [])
          ++ [Signal.ProcessMouseEvent UIElement.UIELEM_VOLUME (100 * (x - 11) / 20)] ∧
      0 ≤ volumeAt x ∧ volumeAt x ≤ 100) ∧
    (∀ x x' : Int, 11 ≤ x → x ≤ x' → x' ≤ 31 → volumeAt x ≤ volumeAt x') ∧
    (volumeAt 11 = 0 ∧ volumeAt 31 = 100) ∧
    (∀ x : Int, 2 ≤ x → x ≤ 37 →
      (MouseEventRequest L e x 3 BUTTON1_CLICKED s).signals
        = s.signals ++ (if s.m_UIState = UISTATE_PLAYLIST
            then [Signal.UIStateUpdated UISTATE_PLAYER] else [])
          ++ [Signal.ProcessMouseEvent UIElement.UIELEM_POSITION (100 * (x - 2) / 35)] ∧
      0 ≤ positionAt x ∧ positionAt x ≤ 100) ∧
    (∀ x x' : Int, 2 ≤ x → x ≤ x' → x' ≤ 37 → positionAt x ≤ positionAt x') ∧
    (positionAt 2 = 0 ∧ positionAt 37 = 100) := by
  refine ⟨?_, ?_, ⟨by decide, by decide⟩, ?_, ?_, ⟨by decide, by decide⟩⟩
  · intro x h0 h1
    refine ⟨?_, ?_, ?_⟩
    · rw [MouseEventRequest_primary, mouseClick_volume L e x _ h0 h1]
      simp only [emit]
      rw [mouseFocus_signals_in_player L e x 2 s (by omega) (by omega)]
      rfl
    · unfold volumeAt; omega
    · unfold volumeAt; omega
  · intro x x' h0 h1 h2
    unfold volumeAt
    omega
  · intro x h0 h1
    refine ⟨?_, ?_, ?_⟩
    · rw [MouseEventRequest_primary, mouseClick_position L e x _ h0 h1]
      simp only [emit]
      rw [mouseFocus_signals_in_player L e x 3 s (by omega) (by omega)]
      rfl
    · unfold positionAt; omega
    · unfold positionAt; omega
  · intro x x' h0 h1 h2
    unfold positionAt
    omega

set_option maxRecDepth 100000 in
/-- C16, on the scenario: a click in the middle of the volume slider gives 50, a click
at the right end of the position slider gives 100. -/
theorem C16_slider_magnitudes_witness :
    (MouseEventRequest demoLib demoEnv 21 2 BUTTON1_CLICKED playlistFocused).signals
      = playlistFocused.signals ++ [Signal.UIStateUpdated UISTATE_PLAYER,
          Signal.ProcessMouseEvent UIElement.UIELEM_VOLUME 50] ∧
    (MouseEventRequest demoLib demoEnv 37 3 BUTTON1_CLICKED playerFocused).signals
      = playerFocused.signals
          ++ [Signal.ProcessMouseEvent UIElement.UIELEM_POSITION 100] :=
  have h := C16_slider_magnitudes demoLib demoEnv playlistFocused
  have h' := C16_slider_magnitudes demoLib demoEnv playerFocused
  ⟨((h.1 21 (by decide) (by decide)).1).trans (by decide),
    ((h'.2.2.2.1 37 (by decide) (by decide)).1).trans (by decide)⟩

/-! ## C17: double click on a row -/

set_option maxRecDepth 100000 in
/-- C17 (fails on the code): in search mode with the query `song b` the first row of the
playlist pane shows `Song B`, whose catalog index is 1; a double click on that
row emits `SetCurrentIndex(0)`, the position in the result list. -/
theorem C17_double_click_in_search :
    searchedSongB.m_UIState = UISTATE_SEARCH ∧
    searchedSongB.rows
      = [{ line := 1, playlistIndex := 0,
           track := some { path := "Song B".toList, name := "Song B".toList,
                           duration := 0, index := 1 },
           selected := true }] ∧
    inPlaylistInterior 5 7 searchedSongB = true ∧
    (MouseEventRequest demoLib demoEnv 5 7 BUTTON1_DOUBLE_CLICKED searchedSongB).signals
      = searchedSongB.signals ++ [Signal.SetCurrentIndex 0] := by
  decide

/-! ## C18: the rows read by the render -/

/-- Every row the track list loop writes comes from one `i < viewCount`. -/
theorem drawTrackList_mem_rows (list : List TrackInfo) (s : UIView) (r : Row)
    (hr : r ∈ (drawTrackList list s).rows) :
    ∃ i : Nat, i < (qBound 0 list.length (s.m_PlaylistWindowHeight - 2)).toNat ∧
      r = { line := (i : Int) + 1
            playlistIndex := (i : Int) + (drawTrackList list s).m_PlaylistOffset
            track := QVector_at list ((i : Int) + (drawTrackList list s).m_PlaylistOffset)
            selected := ((i : Int) + (drawTrackList list s).m_PlaylistOffset)
              == s.m_PlaylistSelected } := by
  unfold drawTrackList at hr
  simp only [List.mem_map, bind, List.mem_flatMap, List.mem_range, pure, List.singleton,
    List.mem_singleton] at hr
  obtain ⟨a, ⟨i, hi, rfl⟩, rfl⟩ := hr
  exact ⟨i, hi, rfl⟩

/-- The loop writes `viewCount` rows. -/
theorem drawTrackList_rows_length (list : List TrackInfo) (s : UIView) :
    (drawTrackList list s).rows.length
      = (qBound 0 list.length (s.m_PlaylistWindowHeight - 2)).toNat := by
  unfold drawTrackList
  simp only [List.length_map, bind, List.length_flatMap, pure, List.singleton,
    Function.comp_def, List.length_singleton, List.map_const', List.length_range,
    List.sum_replicate, smul_eq_mul, mul_one]

theorem drawTrackList_index_in_range (list : List TrackInfo) (s : UIView) (i : Nat)
    (hi : i < (qBound 0 list.length (s.m_PlaylistWindowHeight - 2)).toNat) :
    0 ≤ (i : Int) + (drawTrackList list s).m_PlaylistOffset ∧
    (i : Int) + (drawTrackList list s).m_PlaylistOffset < list.length := by
  have hoff : (drawTrackList list s).m_PlaylistOffset
      = qBound 0 (s.m_PlaylistSelected - Int.tdiv (s.m_PlaylistWindowHeight - 2 - 1) 2)
          (qMax 0 (list.length - (s.m_PlaylistWindowHeight - 2))) := rfl
  rw [hoff]
  generalize s.m_PlaylistSelected - Int.tdiv (s.m_PlaylistWindowHeight - 2 - 1) 2 = v
  generalize s.m_PlaylistWindowHeight - 2 = viewMax at hi ⊢
  generalize (list.length : Int) = n at hi ⊢
  simp only [qBound_eq_clamp, qMax_eq_max, clamp] at hi ⊢
  omega

theorem QVector_at_isSome {α : Type} (v : List α) (i : Int)
    (h0 : 0 ≤ i) (h1 : i < v.length) : (QVector_at v i).isSome = true := by
  unfold QVector_at
  have hlt : i.toNat < v.length := by omega
  simp [h0, h1, List.getElem?_eq_getElem hlt]

theorem drawTrackList_outOfRange (list : List TrackInfo) (s : UIView) :
    (drawTrackList list s).outOfRange = s.outOfRange := by
  have hrows : (drawTrackList list s).rows.any (fun r => r.track.isNone) = false := by
    rw [List.any_eq_false]
    intro r hr
    obtain ⟨i, hi, rfl⟩ := drawTrackList_mem_rows list s r hr
    have hb := drawTrackList_index_in_range list s i hi
    have hsome := QVector_at_isSome list _ hb.1 hb.2
    dsimp only
    cases h : QVector_at list ((i : Int) + (drawTrackList list s).m_PlaylistOffset) with
    | none => rw [h] at hsome; cases hsome
    | some t => simp
  have hdef : (drawTrackList list s).outOfRange
      = (s.outOfRange || (drawTrackList list s).rows.any (fun r => r.track.isNone)) := rfl
  rw [hdef, hrows, Bool.or_false]

theorem DrawPlaylist_outOfRange (L : Lib) (s : UIView) :
    (DrawPlaylist L s).outOfRange = s.outOfRange := by
  unfold DrawPlaylist
  dsimp only
  split_ifs
  · exact drawTrackList_outOfRange _ _
  · exact drawTrackList_outOfRange _ _
  · rfl

/-- C18: for every list, every pane height and every selectedIndex, each row the
playlist render loop writes reads the list at `i + scrollOffset` with
`0 ≤ i + scrollOffset < n`, so the read finds an entry; the loop writes
`clamp(n, 0, viewRows)` rows, hence none for the empty list (and some when the
list is non-empty and `viewRows > 0`); the render never reads outside the list. -/
theorem C18_render_reads_in_range (L : Lib) (list : List TrackInfo) (s : UIView) :
    (∀ r ∈ (drawTrackList list s).rows,
      0 ≤ r.playlistIndex ∧ r.playlistIndex < list.length ∧
      r.playlistIndex = r.line - 1 + (drawTrackList list s).m_PlaylistOffset ∧
      r.track.isSome = true) ∧
    ((drawTrackList list s).rows.length : Int)
      = clamp list.length 0 (s.m_PlaylistWindowHeight - 2) ∧
    (list = [] ∨ (drawTrackList list s).rows ≠ [] ∨ s.m_PlaylistWindowHeight - 2 ≤ 0) ∧
    (list ≠ [] ∨ (drawTrackList list s).rows = []) ∧
    (drawTrackList list s).outOfRange = s.outOfRange ∧
    (DrawPlaylist L s).outOfRange = s.outOfRange := by
  have hlen : ((drawTrackList list s).rows.length : Int)
      = clamp list.length 0 (s.m_PlaylistWindowHeight - 2) := by
    rw [drawTrackList_rows_length, ← qBound_eq_clamp]
    have : 0 ≤ qBound 0 (list.length : Int) (s.m_PlaylistWindowHeight - 2) := by
      rw [qBound_eq_clamp]; unfold clamp; omega
    omega
  refine ⟨?_, hlen, ?_, ?_, drawTrackList_outOfRange list s, DrawPlaylist_outOfRange L s⟩
  · intro r hr
    obtain ⟨i, hi, rfl⟩ := drawTrackList_mem_rows list s r hr
    have hb := drawTrackList_index_in_range list s i hi
    refine ⟨hb.1, hb.2, ?_, QVector_at_isSome list _ hb.1 hb.2⟩
    dsimp only
    omega
  · by_cases hnil : list = []
    · exact Or.inl hnil
    · by_cases hv : s.m_PlaylistWindowHeight - 2 ≤ 0
      · exact Or.inr (Or.inr hv)
      · refine Or.inr (Or.inl ?_)
        intro hr
        have hpos : 0 < list.length := List.length_pos.mpr hnil
        rw [hr] at hlen
        simp only [List.length_nil, Nat.cast_zero, clamp] at hlen
        omega
  · by_cases hnil : list = []
    · refine Or.inr ?_
      have h0 : ((drawTrackList list s).rows.length : Int) = 0 := by
        rw [hlen, hnil]
        simp only [List.length_nil, Nat.cast_zero, clamp]
        omega
      exact List.length_eq_zero.mp (by omega)
    · exact Or.inl hnil

set_option maxRecDepth 100000 in
/-- C18, on a run: six tracks in a pane of four rows, the fifth selected; the loop
reads the list at 2, 3, 4 and 5. -/
theorem C18_render_reads_in_range_witness :
    ((drawTrackList fifthPlaying.m_Playlist fifthPlaying).rows.length : Int) = 4 ∧
    (drawTrackList fifthPlaying.m_Playlist fifthPlaying).rows.map Row.playlistIndex
      = [2, 3, 4, 5] :=
  ⟨(C18_render_reads_in_range demoLib fifthPlaying.m_Playlist fifthPlaying).2.1.trans
    (by decide), by decide⟩

/-! ## C19: the playing index in the player pane -/

set_option maxRecDepth 100000 in
/-- C19 (fails on the code): with three tracks loaded, `CurrentIndexChanged(-1)` makes
the render call `m_Playlist.at(-1)`: the guard `-1 < 3` passes, the read is
outside the vector and no name is returned. -/
theorem C19_negative_playing_index :
    (run demoLib [(demoEnv, Call.PlaylistUpdated songs)]
      (UIView.new demoLib demoEnv)).outOfRange = false ∧
    noCurrentTrack.m_PlaylistPosition = -1 ∧
    noCurrentTrack.m_Playlist.length = 3 ∧
    QVector_at noCurrentTrack.m_Playlist noCurrentTrack.m_PlaylistPosition = none ∧
    fullTrackName noCurrentTrack = none ∧
    (GetPlayerTrackName 0 27 noCurrentTrack).isNone = true ∧
    noCurrentTrack.outOfRange = true := by
  decide

/-! ## C20: the mouse and a hidden playlist pane -/

set_option maxRecDepth 100000 in
/-- C20 (fails on the code): after the terminal shrank from 80 by 24 to 79 by 11 the
playlist pane is absent, but its geometry of the stacked layout is still stored;
a primary click at column 5 of line 8 switches UIState to Playlist and sets
selectedIndex to 1, and a double click there emits `SetCurrentIndex(1)`. -/
theorem C20_stale_playlist_geometry :
    paneHidden.m_PlaylistWindow = false ∧
    paneHidden.m_UIState = UISTATE_PLAYER ∧
    paneHidden.m_PlaylistSelected = 0 ∧
    (paneHidden.m_PlaylistWindowX, paneHidden.m_PlaylistWindowY,
      paneHidden.m_PlaylistWindowHeight) = (0, 6, 18) ∧
    (MouseEventRequest demoLib narrowEnv 5 8 BUTTON1_CLICKED paneHidden).m_PlaylistWindow
      = false ∧
    (MouseEventRequest demoLib narrowEnv 5 8 BUTTON1_CLICKED paneHidden).m_UIState
      = UISTATE_PLAYLIST ∧
    (MouseEventRequest demoLib narrowEnv 5 8 BUTTON1_CLICKED paneHidden).m_PlaylistSelected
      = 1 ∧
    (MouseEventRequest demoLib narrowEnv 5 8 BUTTON1_DOUBLE_CLICKED paneHidden).signals
      = paneHidden.signals ++ [Signal.UIStateUpdated UISTATE_PLAYLIST,
          Signal.SetCurrentIndex 1] := by
  decide

end Namp
